import Mathlib

/-!
# rocprofiler: HSA submission queue and HSA call interceptor

A shallow embedding of `src/core/hsa_queue.h` (`HsaQueue::Submit`) and of
`src/core/hsa_interceptor.h` (`HsaInterceptor`), with the properties of the
specification stated over it.

Machine integers are natural numbers reduced explicitly: the 64-bit write
index modulo `2^64`, the 32-bit mask modulo `2^32`.  Memory reached through a
pointer is a function from offsets to values.
-/

namespace rocprofiler

/-! ## Part 1: `HsaQueue` (src/core/hsa_queue.h) -/

/-- One machine word of a packet (`packet_word_t`). -/
abbrev packet_word_t := Nat

/-- A packet as it is read through `src`: `src[i]` is `packet i`. -/
abbrev packet_t := Nat → packet_word_t

/-- The ring memory behind `base_address`, seen as `packet_t` slots:
`mem s w` is word `w` of slot `s`. -/
abbrev ring_t := Nat → Nat → packet_word_t

/-- The fields of `hsa_queue_t` that `Submit` touches, together with the
write index kept by the runtime for that queue and the value of its doorbell
signal. -/
structure hsa_queue_t where
  /-- Field `size` (a `uint32_t`): number of packet slots. -/
  size : Nat
  /-- The queue write index (a `uint64_t`). -/
  write_index : Nat
  /-- The packet slots starting at `base_address`. -/
  base_address : ring_t
  /-- Current value of `doorbell_signal` (a signed 64-bit signal value). -/
  doorbell_signal : Int

/-- Memory order attached to a store. -/
inductive mem_order where
  | plain
  | relaxed
  | release
  deriving DecidableEq, Repr

/-- The externally visible effects of `Submit`, in program order. -/
inductive Effect where
  /-- The call `hsa_queue_store_write_index_relaxed(queue_, v)`. -/
  | store_write_index (v : Nat)
  /-- A store of `value` into word `word` of slot `slot` of the ring. -/
  | store_word (slot word : Nat) (value : packet_word_t) (order : mem_order)
  /-- The call `hsa_signal_store_relaxed(queue_->doorbell_signal, v)`. -/
  | signal_store (v : Int)
  deriving DecidableEq, Repr

/-- Wrap-around of an unsigned 64-bit value. -/
def wrap64 (x : Nat) : Nat := x % 2 ^ 64

/-- Wrap-around of an unsigned 32-bit value. -/
def wrap32 (x : Nat) : Nat := x % 2 ^ 32

/-- Conversion of an unsigned 64-bit value to the signed 64-bit
signal value type (two's complement). -/
def to_signal_value (x : Nat) : Int :=
  if wrap64 x < 2 ^ 63 then (wrap64 x : Int) else (wrap64 x : Int) - 2 ^ 64

/-- Runtime call `hsa_queue_load_write_index_relaxed`. -/
def hsa_queue_load_write_index_relaxed (queue_ : hsa_queue_t) : Nat :=
  queue_.write_index

/-- Runtime call `hsa_queue_store_write_index_relaxed`; the value
parameter is a `uint64_t`. -/
def hsa_queue_store_write_index_relaxed (queue_ : hsa_queue_t) (value : Nat) : hsa_queue_t :=
  { queue_ with write_index := wrap64 value }

/-- Runtime call `hsa_signal_store_relaxed` on the queue's doorbell. -/
def hsa_signal_store_relaxed (queue_ : hsa_queue_t) (value : Int) : hsa_queue_t :=
  { queue_ with doorbell_signal := value }

/-- A single store `dst[word] = value` where `dst` is slot `slot`. -/
def store_slot_word (mem : ring_t) (slot word : Nat) (value : packet_word_t) : ring_t :=
  fun s w => if s = slot ∧ w = word then value else mem s w

/-- Memory after one effect (only word stores change the ring). -/
def apply_effect (mem : ring_t) : Effect → ring_t
  | Effect.store_word slot word value _ => store_slot_word mem slot word value
  | _ => mem

/-- Memory after a sequence of effects, in order. -/
def apply_effects (mem : ring_t) (es : List Effect) : ring_t :=
  es.foldl apply_effect mem

/-- The loop `for (unsigned i = 1; i < nwords; ++i) dst[i] = src[i];`
started at `i`, with `n` iterations of fuel; returns the stores it makes. -/
def copy_loop (nwords slot : Nat) (src : packet_t) : Nat → Nat → List Effect
  | _, 0 => []
  | i, n + 1 =>
    if i < nwords then
      Effect.store_word slot i (src i) mem_order.plain :: copy_loop nwords slot src (i + 1) n
    else []

/-- `HsaQueue::Submit`.  `nwords` is `sizeof(packet_t) / sizeof(packet_word_t)`
(the two types come from `core/types.h`).  Returns the queue afterwards and
the effects in program order. -/
def Submit (nwords : Nat) (queue_ : hsa_queue_t) (packet : packet_t) :
    hsa_queue_t × List Effect :=
  -- const uint64_t que_idx = hsa_queue_load_write_index_relaxed(queue_);
  let que_idx := hsa_queue_load_write_index_relaxed queue_
  -- hsa_queue_store_write_index_relaxed(queue_, que_idx + 1);
  let q1 := hsa_queue_store_write_index_relaxed queue_ (que_idx + 1)
  let e1 := [Effect.store_write_index (wrap64 (que_idx + 1))]
  -- const uint32_t mask = queue_->size - 1;
  let mask := wrap32 (queue_.size + 2 ^ 32 - 1)
  -- packet_t* slot = base_address + (que_idx & mask);
  let slot := que_idx &&& mask
  -- for (unsigned i = 1; i < nwords; ++i) dst[i] = src[i];
  let e2 := copy_loop nwords slot packet 1 nwords
  -- header_atomic_ptr->store(src[0], std::memory_order_release);
  let e3 := [Effect.store_word slot 0 (packet 0) mem_order.release]
  let q2 := { q1 with base_address := apply_effects q1.base_address (e2 ++ e3) }
  -- hsa_signal_store_relaxed(queue_->doorbell_signal, que_idx);
  let q3 := hsa_signal_store_relaxed q2 (to_signal_value que_idx)
  (q3, e1 ++ e2 ++ e3 ++ [Effect.signal_store (to_signal_value que_idx)])

/-- Consecutive calls of `Submit` by one producer, one per packet of the
list; returns the final queue and the effects of each call. -/
def SubmitAll (nwords : Nat) : hsa_queue_t → List packet_t → hsa_queue_t × List (List Effect)
  | q, [] => (q, [])
  | q, p :: ps =>
    let r := Submit nwords q p
    let rest := SubmitAll nwords r.1 ps
    (rest.1, r.2 :: rest.2)

/-- The slots that a sequence of effects stores a header (word 0) into. -/
def header_slots : List Effect → List Nat
  | [] => []
  | Effect.store_word slot 0 _ _ :: es => slot :: header_slots es
  | _ :: es => header_slots es

/-- All slots that a sequence of effects stores any word into. -/
def written_slots : List Effect → List Nat
  | [] => []
  | Effect.store_word slot _ _ _ :: es => slot :: written_slots es
  | _ :: es => written_slots es

/-- The word stores of a sequence of effects, in order, as
`(slot, word, value, order)`. -/
def word_stores : List Effect → List (Nat × Nat × packet_word_t × mem_order)
  | [] => []
  | Effect.store_word slot word value order :: es => (slot, word, value, order) :: word_stores es
  | _ :: es => word_stores es

/-- The slot used by each call of a run of `SubmitAll`, in call order. -/
def used_slots (logs : List (List Effect)) : List Nat :=
  logs.flatMap header_slots

/-- The values stored to the doorbell signal by a sequence of effects. -/
def doorbell_values : List Effect → List Int
  | [] => []
  | Effect.signal_store v :: es => v :: doorbell_values es
  | _ :: es => doorbell_values es

/-- A queue of four slots whose write index is two short of wrapping
around, with an all-zero ring. -/
def example_queue : hsa_queue_t :=
  { size := 4, write_index := 2 ^ 64 - 2, base_address := fun _ _ => 0, doorbell_signal := 0 }

/-- A queue of four slots with write index 5 and an all-zero ring. -/
def example_queue5 : hsa_queue_t :=
  { size := 4, write_index := 5, base_address := fun _ _ => 0, doorbell_signal := 0 }

/-- The packet whose word `i` is `100 * n + i`. -/
def example_packet (n : Nat) : packet_t := fun i => 100 * n + i

/-! ## Part 2: `HsaInterceptor` (src/core/hsa_interceptor.h) -/

/-- Status code of the runtime (`hsa_status_t`). -/
abbrev hsa_status_t := Nat

/-- The status `HSA_STATUS_SUCCESS`. -/
def HSA_STATUS_SUCCESS : hsa_status_t := 0

/-- The generic status `HSA_STATUS_ERROR`. -/
def HSA_STATUS_ERROR : hsa_status_t := 0x1000

/-- Opaque agent handle. -/
abbrev hsa_agent_t := Nat
/-- Opaque region handle. -/
abbrev hsa_region_t := Nat
/-- Opaque memory pool handle. -/
abbrev hsa_amd_memory_pool_t := Nat
/-- Opaque signal handle. -/
abbrev hsa_signal_t := Nat
/-- A `void*` value; also used for pointers that are only passed along. -/
abbrev void_ptr := Nat

/-- Attributes passed to the information queries used by the wrappers. -/
inductive info_attr where
  | HSA_REGION_INFO_SEGMENT
  | HSA_REGION_INFO_GLOBAL_FLAGS
  | HSA_AGENT_INFO_DEVICE
  | HSA_AMD_MEMORY_POOL_INFO_SEGMENT
  | HSA_AMD_MEMORY_POOL_INFO_GLOBAL_FLAGS
  | HSA_AMD_AGENT_MEMORY_POOL_INFO_ACCESS
  deriving DecidableEq, Repr

/-- Values of `hsa_amd_memory_pool_access_t`. -/
inductive hsa_amd_memory_pool_access_t where
  | HSA_AMD_MEMORY_POOL_ACCESS_NEVER_ALLOWED
  | HSA_AMD_MEMORY_POOL_ACCESS_ALLOWED_BY_DEFAULT
  | HSA_AMD_MEMORY_POOL_ACCESS_DISALLOWED_BY_DEFAULT
  deriving DecidableEq, Repr

/-- Callback identifiers (`rocprofiler_hsa_cb_id_t`). -/
inductive rocprofiler_hsa_cb_id_t where
  | ROCPROFILER_HSA_CB_ID_ALLOCATE
  | ROCPROFILER_HSA_CB_ID_DEVICE
  | ROCPROFILER_HSA_CB_ID_MEMCOPY
  | ROCPROFILER_HSA_CB_ID_SUBMIT
  deriving DecidableEq, Repr

open rocprofiler_hsa_cb_id_t info_attr hsa_amd_memory_pool_access_t

/-- Member `allocate` of the callback data. -/
structure allocate_data where
  addr : void_ptr
  size : Nat
  segment : Nat
  global_flag : Nat
  deriving DecidableEq, Repr

/-- Member `device` of the callback data. -/
structure device_data where
  id : Nat
  mem : void_ptr
  type : Nat
  deriving DecidableEq, Repr

/-- Member `memcopy` of the callback data. -/
structure memcopy_data where
  dst : void_ptr
  src : void_ptr
  size : Nat
  deriving DecidableEq, Repr

/-- The callback data handed to a handler (`rocprofiler_hsa_callback_data_t`),
seen through the member that the wrapper filled in. -/
inductive rocprofiler_hsa_callback_data_t where
  | allocate (d : allocate_data)
  | device (d : device_data)
  | memcopy (d : memcopy_data)
  deriving DecidableEq, Repr

/-- A non-null handler pointer (`rocprofiler_hsa_callback_fun_t`). -/
abbrev rocprofiler_hsa_callback_fun_t := Nat

/-- The callback set (`rocprofiler_hsa_callbacks_t`); `none` is `NULL`. -/
structure rocprofiler_hsa_callbacks_t where
  allocate : Option rocprofiler_hsa_callback_fun_t
  device : Option rocprofiler_hsa_callback_fun_t
  memcopy : Option rocprofiler_hsa_callback_fun_t
  submit : Option rocprofiler_hsa_callback_fun_t
  deriving DecidableEq, Repr

/-- What a wrapper does that is visible outside of it, in program order:
calls through the saved original pointers, runtime queries, agent
resolution, and handler invocations. -/
inductive Action where
  | hsa_memory_allocate_fn (region : hsa_region_t) (size : Nat)
  | hsa_memory_assign_agent_fn (ptr : void_ptr) (agent : hsa_agent_t) (access : Nat)
  | hsa_memory_copy_fn (dst src : void_ptr) (size : Nat)
  | hsa_amd_memory_pool_allocate_fn (pool : hsa_amd_memory_pool_t) (size flags : Nat)
  | hsa_amd_agents_allow_access_fn (num_agents : Nat) (agents : List hsa_agent_t)
      (flags ptr : void_ptr)
  | hsa_amd_memory_async_copy_fn (dst : void_ptr) (dst_agent : hsa_agent_t) (src : void_ptr)
      (src_agent : hsa_agent_t) (size num_dep_signals : Nat) (dep_signals : void_ptr)
      (completion_signal : hsa_signal_t)
  | hsa_region_get_info (region : hsa_region_t) (attr : info_attr)
  | hsa_agent_get_info (agent : hsa_agent_t) (attr : info_attr)
  | hsa_amd_memory_pool_get_info (pool : hsa_amd_memory_pool_t) (attr : info_attr)
  | hsa_amd_agent_memory_pool_get_info (agent : hsa_agent_t) (pool : hsa_amd_memory_pool_t)
      (attr : info_attr)
  | hsa_iterate_agents
  | GetAgentInfo (agent : hsa_agent_t)
  | callback (fn : rocprofiler_hsa_callback_fun_t) (id : rocprofiler_hsa_cb_id_t)
      (data : rocprofiler_hsa_callback_data_t) (arg : void_ptr)
  deriving DecidableEq, Repr

/-- The behaviour of everything the wrappers call: the functions behind the
six saved original pointers, the runtime's queries, the runtime's list of
agents, and the agent resolver.  A function with an output parameter returns
the status together with the value found in the output cell afterwards. -/
structure Runtime where
  hsa_memory_allocate_fn : hsa_region_t → Nat → hsa_status_t × void_ptr
  hsa_memory_assign_agent_fn : void_ptr → hsa_agent_t → Nat → hsa_status_t
  hsa_memory_copy_fn : void_ptr → void_ptr → Nat → hsa_status_t
  hsa_amd_memory_pool_allocate_fn : hsa_amd_memory_pool_t → Nat → Nat → hsa_status_t × void_ptr
  hsa_amd_agents_allow_access_fn :
    Nat → (Nat → hsa_agent_t) → void_ptr → void_ptr → hsa_status_t
  hsa_amd_memory_async_copy_fn :
    void_ptr → hsa_agent_t → void_ptr → hsa_agent_t → Nat → Nat → void_ptr → hsa_signal_t →
      hsa_status_t
  hsa_region_get_info : hsa_region_t → info_attr → hsa_status_t × Nat
  hsa_agent_get_info : hsa_agent_t → info_attr → hsa_status_t × Nat
  hsa_amd_memory_pool_get_info : hsa_amd_memory_pool_t → info_attr → hsa_status_t × Nat
  hsa_amd_agent_memory_pool_get_info :
    hsa_agent_t → hsa_amd_memory_pool_t → info_attr → hsa_status_t × hsa_amd_memory_pool_access_t
  /-- The agents of the system, in the order `hsa_iterate_agents` visits them. -/
  system_agents : List hsa_agent_t
  /-- Field `dev_index` of the record `HsaRsrcFactory::GetAgentInfo` resolves an agent to. -/
  dev_index : hsa_agent_t → Nat

/-- How a wrapper ends: it returns a value to its caller, or the process is
aborted; either way with the actions performed up to that point. -/
inductive Result (α : Type) where
  | ret (value : α) (trace : List Action)
  | abort (status : hsa_status_t) (what : String) (trace : List Action)
  deriving DecidableEq, Repr

/-- The actions performed, whichever way the run ended. -/
def Result.trace {α : Type} : Result α → List Action
  | Result.ret _ tr => tr
  | Result.abort _ _ tr => tr

/-- The value returned to the caller, if the run returned. -/
def Result.returned {α : Type} : Result α → Option α
  | Result.ret a _ => some a
  | Result.abort _ _ _ => none

/-- Sequencing: the second part runs only if the first returned; an abort
ends the run. -/
def Result.bind {α β : Type} (m : Result α) (f : α → Result β) : Result β :=
  match m with
  | Result.ret a tr =>
    match f a with
    | Result.ret b tr2 => Result.ret b (tr ++ tr2)
    | Result.abort s w tr2 => Result.abort s w (tr ++ tr2)
  | Result.abort s w tr => Result.abort s w tr

instance : Monad Result where
  pure a := Result.ret a []
  bind := Result.bind

/-- Perform one visible action. -/
def act (a : Action) : Result Unit := Result.ret () [a]

/-- Modelled from the spec: the macro `EXC_ABORT` of `util/exception.h`, which is
not among the sources.  The spec's FatalAbort terminates the process with a
diagnostic naming the failing operation and never returns control. -/
def EXC_ABORT {α : Type} (status : hsa_status_t) (what : String) : Result α :=
  Result.abort status what []

/-- The macro `HSA_RT(call)`: abort unless the call returned success. -/
def HSA_RT (call : Result hsa_status_t) (what : String) : Result Unit := do
  let status ← call
  if status ≠ HSA_STATUS_SUCCESS then EXC_ABORT status what else pure ()

/-- The handler that `IS_HSA_CALLBACK(ID)` selects. -/
def IS_HSA_CALLBACK (callbacks_ : rocprofiler_hsa_callbacks_t) (ID : rocprofiler_hsa_cb_id_t) :
    Option rocprofiler_hsa_callback_fun_t :=
  if ID = ROCPROFILER_HSA_CB_ID_ALLOCATE then callbacks_.allocate
  else if ID = ROCPROFILER_HSA_CB_ID_DEVICE then callbacks_.device
  else if ID = ROCPROFILER_HSA_CB_ID_MEMCOPY then callbacks_.memcopy
  else callbacks_.submit

/-- The macro `DO_HSA_CALLBACK`: `__callback(__id, &data, __arg)`. -/
def DO_HSA_CALLBACK (__callback : rocprofiler_hsa_callback_fun_t) (__id : rocprofiler_hsa_cb_id_t)
    (data : rocprofiler_hsa_callback_data_t) (__arg : void_ptr) : Result Unit :=
  act (Action.callback __callback __id data __arg)

/-- The macro `ISSUE_HSA_CALLBACK(ID)`. -/
def ISSUE_HSA_CALLBACK (callbacks_ : rocprofiler_hsa_callbacks_t) (arg_ : void_ptr)
    (ID : rocprofiler_hsa_cb_id_t) (data : rocprofiler_hsa_callback_data_t) : Result Unit :=
  match IS_HSA_CALLBACK callbacks_ ID with
  | some __callback => DO_HSA_CALLBACK __callback ID data arg_
  | none => pure ()

/-- Function pointer values that can sit in a slot of the dispatch table:
the six wrappers of `HsaInterceptor`, or any other function. -/
inductive fn_ptr where
  | MemoryAllocate
  | MemoryAssignAgent
  | MemoryCopy
  | MemoryPoolAllocate
  | AgentsAllowAccess
  | MemoryAsyncCopy
  | other (f : Nat)
  deriving DecidableEq, Repr

/-- The core sub-table (`table->core_`): the three slots the interceptor
names and all remaining slots. -/
structure CoreApiTable where
  hsa_memory_allocate_fn : fn_ptr
  hsa_memory_assign_agent_fn : fn_ptr
  hsa_memory_copy_fn : fn_ptr
  rest : List fn_ptr
  deriving DecidableEq, Repr

/-- The AMD extension sub-table (`table->amd_ext_`): the three slots the
interceptor names and all remaining slots. -/
structure AmdExtTable where
  hsa_amd_memory_pool_allocate_fn : fn_ptr
  hsa_amd_agents_allow_access_fn : fn_ptr
  hsa_amd_memory_async_copy_fn : fn_ptr
  rest : List fn_ptr
  deriving DecidableEq, Repr

/-- The dispatch table (`HsaApiTable`): the two sub-tables the interceptor
uses and the slots of every other sub-table. -/
structure HsaApiTable where
  core_ : CoreApiTable
  amd_ext_ : AmdExtTable
  rest : List fn_ptr
  deriving DecidableEq, Repr

/-- The process-wide state: the six saved original pointers (namespace-level
variables) and the static members of `HsaInterceptor`. -/
structure Globals where
  hsa_memory_allocate_fn : fn_ptr
  hsa_memory_assign_agent_fn : fn_ptr
  hsa_memory_copy_fn : fn_ptr
  hsa_amd_memory_pool_allocate_fn : fn_ptr
  hsa_amd_agents_allow_access_fn : fn_ptr
  hsa_amd_memory_async_copy_fn : fn_ptr
  enable_ : Bool
  callbacks_ : rocprofiler_hsa_callbacks_t
  arg_ : void_ptr
  deriving DecidableEq, Repr

/-- `HsaInterceptor::Enable`. -/
def Enable (g : Globals) (enable : Bool) : Globals :=
  { g with enable_ := enable }

/-- `HsaInterceptor::SetCallbacks`. -/
def SetCallbacks (g : Globals) (callbacks : rocprofiler_hsa_callbacks_t) (arg : void_ptr) :
    Globals :=
  { g with callbacks_ := callbacks, arg_ := arg }

/-- `HsaInterceptor::HsaIntercept`: returns the process-wide state and the
table afterwards, and the lines written to `stderr`. -/
def HsaIntercept (g : Globals) (table : HsaApiTable) : Globals × HsaApiTable × List String :=
  let err0 := ["HsaInterceptor ..."]
  if g.enable_ then
    let err1 := err0 ++ ["HsaInterceptor enabled"]
    -- saving original API functions
    let g1 := { g with hsa_memory_allocate_fn := table.core_.hsa_memory_allocate_fn }
    let g2 := { g1 with hsa_memory_assign_agent_fn := table.core_.hsa_memory_assign_agent_fn }
    let g3 := { g2 with hsa_memory_copy_fn := table.core_.hsa_memory_copy_fn }
    let g4 := { g3 with
      hsa_amd_memory_pool_allocate_fn := table.amd_ext_.hsa_amd_memory_pool_allocate_fn }
    let g5 := { g4 with
      hsa_amd_agents_allow_access_fn := table.amd_ext_.hsa_amd_agents_allow_access_fn }
    let g6 := { g5 with
      hsa_amd_memory_async_copy_fn := table.amd_ext_.hsa_amd_memory_async_copy_fn }
    -- intercepting API
    let t1 := { table with
      core_ := { table.core_ with hsa_memory_allocate_fn := fn_ptr.MemoryAllocate } }
    let t2 := { t1 with
      core_ := { t1.core_ with hsa_memory_assign_agent_fn := fn_ptr.MemoryAssignAgent } }
    let t3 := { t2 with core_ := { t2.core_ with hsa_memory_copy_fn := fn_ptr.MemoryCopy } }
    let t4 := { t3 with
      amd_ext_ := { t3.amd_ext_ with hsa_amd_memory_pool_allocate_fn := fn_ptr.MemoryPoolAllocate } }
    let t5 := { t4 with
      amd_ext_ := { t4.amd_ext_ with hsa_amd_agents_allow_access_fn := fn_ptr.AgentsAllowAccess } }
    let t6 := { t5 with
      amd_ext_ := { t5.amd_ext_ with hsa_amd_memory_async_copy_fn := fn_ptr.MemoryAsyncCopy } }
    (g6, t6, err1 ++ ["HsaInterceptor done"])
  else
    (g, table, err0 ++ ["HsaInterceptor done"])

/-- A call of a function with an output parameter: record the call and give
back the status and the value in the output cell. -/
def call_out {β : Type} (a : Action) (r : hsa_status_t × β) : Result (hsa_status_t × β) := do
  act a
  pure r

/-- A call of a function without output parameter: record the call and give
back the status. -/
def call_st (a : Action) (r : hsa_status_t) : Result hsa_status_t := do
  act a
  pure r

/-- `HsaInterceptor::MemoryAllocate` (region-based allocation). -/
def MemoryAllocate (rt : Runtime) (callbacks_ : rocprofiler_hsa_callbacks_t) (arg_ : void_ptr)
    (region : hsa_region_t) (size : Nat) : Result hsa_status_t := do
  (EXC_ABORT HSA_STATUS_ERROR "Deprecated API" : Result Unit)
  let status := HSA_STATUS_SUCCESS
  -- HSA_RT(hsa_memory_allocate_fn(region, size, ptr));
  let r ← call_out (Action.hsa_memory_allocate_fn region size) (rt.hsa_memory_allocate_fn region size)
  HSA_RT (pure r.1) "hsa_memory_allocate_fn(region, size, ptr)"
  match IS_HSA_CALLBACK callbacks_ ROCPROFILER_HSA_CB_ID_ALLOCATE with
  | some __callback =>
    let data : allocate_data := { addr := r.2, size := size, segment := 0, global_flag := 0 }
    let s1 ← call_out (Action.hsa_region_get_info region HSA_REGION_INFO_SEGMENT)
      (rt.hsa_region_get_info region HSA_REGION_INFO_SEGMENT)
    HSA_RT (pure s1.1)
      "hsa_region_get_info(region, HSA_REGION_INFO_SEGMENT, &data.allocate.segment)"
    let data := { data with segment := s1.2 }
    let s2 ← call_out (Action.hsa_region_get_info region HSA_REGION_INFO_GLOBAL_FLAGS)
      (rt.hsa_region_get_info region HSA_REGION_INFO_GLOBAL_FLAGS)
    HSA_RT (pure s2.1)
      "hsa_region_get_info(region, HSA_REGION_INFO_GLOBAL_FLAGS, &data.allocate.global_flag)"
    let data := { data with global_flag := s2.2 }
    DO_HSA_CALLBACK __callback ROCPROFILER_HSA_CB_ID_ALLOCATE
      (rocprofiler_hsa_callback_data_t.allocate data) arg_
  | none => pure ()
  return status

/-- `HsaInterceptor::MemoryAssignAgent`. -/
def MemoryAssignAgent (rt : Runtime) (callbacks_ : rocprofiler_hsa_callbacks_t) (arg_ : void_ptr)
    (ptr : void_ptr) (agent : hsa_agent_t) (access : Nat) : Result hsa_status_t := do
  (EXC_ABORT HSA_STATUS_ERROR "Deprecated API" : Result Unit)
  let status := HSA_STATUS_SUCCESS
  HSA_RT (call_st (Action.hsa_memory_assign_agent_fn ptr agent access)
    (rt.hsa_memory_assign_agent_fn ptr agent access)) "hsa_memory_assign_agent_fn(ptr, agent, access)"
  match IS_HSA_CALLBACK callbacks_ ROCPROFILER_HSA_CB_ID_DEVICE with
  | some __callback =>
    let data : device_data := { id := 0, mem := ptr, type := 0 }
    let s1 ← call_out (Action.hsa_agent_get_info agent HSA_AGENT_INFO_DEVICE)
      (rt.hsa_agent_get_info agent HSA_AGENT_INFO_DEVICE)
    HSA_RT (pure s1.1) "hsa_agent_get_info(agent, HSA_AGENT_INFO_DEVICE, &data.device.type)"
    let data := { data with type := s1.2 }
    DO_HSA_CALLBACK __callback ROCPROFILER_HSA_CB_ID_DEVICE
      (rocprofiler_hsa_callback_data_t.device data) arg_
  | none => pure ()
  return status

/-- The body of the loop of `DeviceCallback` for one agent. -/
def DeviceCallback_body (rt : Runtime) (callbacks_ : rocprofiler_hsa_callbacks_t)
    (arg_ : void_ptr) (agent : hsa_agent_t) (ptr : void_ptr) : Result Unit := do
  -- data.device.id = util::HsaRsrcFactory::Instance().GetAgentInfo(agent)->dev_index;
  act (Action.GetAgentInfo agent)
  let data : device_data := { id := rt.dev_index agent, mem := 0, type := 0 }
  let data := { data with mem := ptr }
  let s1 ← call_out (Action.hsa_agent_get_info agent HSA_AGENT_INFO_DEVICE)
    (rt.hsa_agent_get_info agent HSA_AGENT_INFO_DEVICE)
  HSA_RT (pure s1.1) "hsa_agent_get_info(agent, HSA_AGENT_INFO_DEVICE, &data.device.type)"
  let data := { data with type := s1.2 }
  ISSUE_HSA_CALLBACK callbacks_ arg_ ROCPROFILER_HSA_CB_ID_DEVICE
    (rocprofiler_hsa_callback_data_t.device data)

/-- The loop of `DeviceCallback`: `agent_p` stands at `agents + j` and `n`
elements remain before `agents + num_agents`. -/
def DeviceCallback_loop (rt : Runtime) (callbacks_ : rocprofiler_hsa_callbacks_t)
    (arg_ : void_ptr) (agents : Nat → hsa_agent_t) (ptr : void_ptr) : Nat → Nat → Result Unit
  | _, 0 => pure ()
  | j, n + 1 => do
    DeviceCallback_body rt callbacks_ arg_ (agents j) ptr
    DeviceCallback_loop rt callbacks_ arg_ agents ptr (j + 1) n

/-- `HsaInterceptor::DeviceCallback`; `agents j` is `agents[j]`. -/
def DeviceCallback (rt : Runtime) (callbacks_ : rocprofiler_hsa_callbacks_t) (arg_ : void_ptr)
    (num_agents : Nat) (agents : Nat → hsa_agent_t) (ptr : void_ptr) : Result Unit :=
  DeviceCallback_loop rt callbacks_ arg_ agents ptr 0 num_agents

/-- `HsaInterceptor::AgentsAllowAccess`. -/
def AgentsAllowAccess (rt : Runtime) (callbacks_ : rocprofiler_hsa_callbacks_t) (arg_ : void_ptr)
    (num_agents : Nat) (agents : Nat → hsa_agent_t) (flags : void_ptr) (ptr : void_ptr) :
    Result hsa_status_t := do
  let status := HSA_STATUS_SUCCESS
  HSA_RT (call_st
      (Action.hsa_amd_agents_allow_access_fn num_agents ((List.range num_agents).map agents)
        flags ptr)
      (rt.hsa_amd_agents_allow_access_fn num_agents agents flags ptr))
    "hsa_amd_agents_allow_access_fn(num_agents, agents, flags, ptr)"
  match IS_HSA_CALLBACK callbacks_ ROCPROFILER_HSA_CB_ID_DEVICE with
  | some _ => DeviceCallback rt callbacks_ arg_ num_agents agents ptr
  | none => pure ()
  return status

/-- The record `agent_callback_data_t`. -/
structure agent_callback_data_t where
  pool : hsa_amd_memory_pool_t
  addr : void_ptr
  deriving DecidableEq, Repr

/-- `HsaInterceptor::AgentCallback`. -/
def AgentCallback (rt : Runtime) (callbacks_ : rocprofiler_hsa_callbacks_t) (arg_ : void_ptr)
    (agent : hsa_agent_t) (callback_data : agent_callback_data_t) : Result hsa_status_t := do
  let attr := HSA_AMD_AGENT_MEMORY_POOL_INFO_ACCESS
  let v ← call_out (Action.hsa_amd_agent_memory_pool_get_info agent callback_data.pool attr)
    (rt.hsa_amd_agent_memory_pool_get_info agent callback_data.pool attr)
  HSA_RT (pure v.1)
    "hsa_amd_agent_memory_pool_get_info(agent, callback_data->pool, attribute, &value)"
  let value := v.2
  if value = HSA_AMD_MEMORY_POOL_ACCESS_ALLOWED_BY_DEFAULT then
    DeviceCallback rt callbacks_ arg_ 1 (fun _ => agent) callback_data.addr
  else pure ()
  return HSA_STATUS_SUCCESS

/-- The traversal made by the runtime function `hsa_iterate_agents`: the
callback is invoked once per agent, and a status other than success returned
by the callback stops the traversal and is returned. -/
def iterate_agents_loop (callback : hsa_agent_t → Result hsa_status_t) :
    List hsa_agent_t → Result hsa_status_t
  | [] => pure HSA_STATUS_SUCCESS
  | a :: as => do
    let s ← callback a
    if s ≠ HSA_STATUS_SUCCESS then pure s else iterate_agents_loop callback as

/-- The runtime function `hsa_iterate_agents`. -/
def hsa_iterate_agents (rt : Runtime) (callback : hsa_agent_t → Result hsa_status_t) :
    Result hsa_status_t := do
  act Action.hsa_iterate_agents
  iterate_agents_loop callback rt.system_agents

/-- `HsaInterceptor::MemoryPoolAllocate`. -/
def MemoryPoolAllocate (rt : Runtime) (callbacks_ : rocprofiler_hsa_callbacks_t) (arg_ : void_ptr)
    (pool : hsa_amd_memory_pool_t) (size : Nat) (flags : Nat) : Result hsa_status_t := do
  let status := HSA_STATUS_SUCCESS
  let r ← call_out (Action.hsa_amd_memory_pool_allocate_fn pool size flags)
    (rt.hsa_amd_memory_pool_allocate_fn pool size flags)
  HSA_RT (pure r.1) "hsa_amd_memory_pool_allocate_fn(pool, size, flags, ptr)"
  match IS_HSA_CALLBACK callbacks_ ROCPROFILER_HSA_CB_ID_ALLOCATE with
  | some __callback =>
    let data : allocate_data := { addr := r.2, size := size, segment := 0, global_flag := 0 }
    let s1 ← call_out (Action.hsa_amd_memory_pool_get_info pool HSA_AMD_MEMORY_POOL_INFO_SEGMENT)
      (rt.hsa_amd_memory_pool_get_info pool HSA_AMD_MEMORY_POOL_INFO_SEGMENT)
    HSA_RT (pure s1.1) "hsa_amd_memory_pool_get_info(pool, HSA_AMD_MEMORY_POOL_INFO_SEGMENT, &data.allocate.segment)"
    let data := { data with segment := s1.2 }
    let s2 ← call_out
      (Action.hsa_amd_memory_pool_get_info pool HSA_AMD_MEMORY_POOL_INFO_GLOBAL_FLAGS)
      (rt.hsa_amd_memory_pool_get_info pool HSA_AMD_MEMORY_POOL_INFO_GLOBAL_FLAGS)
    HSA_RT (pure s2.1) "hsa_amd_memory_pool_get_info(pool, HSA_AMD_MEMORY_POOL_INFO_GLOBAL_FLAGS, &data.allocate.global_flag)"
    let data := { data with global_flag := s2.2 }
    DO_HSA_CALLBACK __callback ROCPROFILER_HSA_CB_ID_ALLOCATE
      (rocprofiler_hsa_callback_data_t.allocate data) arg_
    match IS_HSA_CALLBACK callbacks_ ROCPROFILER_HSA_CB_ID_DEVICE with
    | some _ =>
      -- Scan the pool assigned devices
      let callback_data : agent_callback_data_t := { pool := pool, addr := r.2 }
      let _ ← hsa_iterate_agents rt (fun agent => AgentCallback rt callbacks_ arg_ agent callback_data)
      pure ()
    | none => pure ()
  | none => pure ()
  return status

/-- `HsaInterceptor::MemoryCopy`. -/
def MemoryCopy (rt : Runtime) (callbacks_ : rocprofiler_hsa_callbacks_t) (arg_ : void_ptr)
    (dst src : void_ptr) (size : Nat) : Result hsa_status_t := do
  let status := HSA_STATUS_SUCCESS
  HSA_RT (call_st (Action.hsa_memory_copy_fn dst src size) (rt.hsa_memory_copy_fn dst src size))
    "hsa_memory_copy_fn(dst, src, size)"
  match IS_HSA_CALLBACK callbacks_ ROCPROFILER_HSA_CB_ID_MEMCOPY with
  | some __callback =>
    let data : memcopy_data := { dst := 0, src := 0, size := 0 }
    let data := { data with dst := dst }
    let data := { data with src := src }
    let data := { data with size := size }
    DO_HSA_CALLBACK __callback ROCPROFILER_HSA_CB_ID_MEMCOPY
      (rocprofiler_hsa_callback_data_t.memcopy data) arg_
  | none => pure ()
  return status

/-- `HsaInterceptor::MemoryAsyncCopy`. -/
def MemoryAsyncCopy (rt : Runtime) (callbacks_ : rocprofiler_hsa_callbacks_t) (arg_ : void_ptr)
    (dst : void_ptr) (dst_agent : hsa_agent_t) (src : void_ptr) (src_agent : hsa_agent_t)
    (size : Nat) (num_dep_signals : Nat) (dep_signals : void_ptr)
    (completion_signal : hsa_signal_t) : Result hsa_status_t := do
  let status := HSA_STATUS_SUCCESS
  HSA_RT (call_st
      (Action.hsa_amd_memory_async_copy_fn dst dst_agent src src_agent size num_dep_signals
        dep_signals completion_signal)
      (rt.hsa_amd_memory_async_copy_fn dst dst_agent src src_agent size num_dep_signals
        dep_signals completion_signal))
    "hsa_amd_memory_async_copy_fn(dst, dst_agent, src, src_agent, size, num_dep_signals, dep_signals, completion_signal)"
  match IS_HSA_CALLBACK callbacks_ ROCPROFILER_HSA_CB_ID_MEMCOPY with
  | some __callback =>
    let data : memcopy_data := { dst := 0, src := 0, size := 0 }
    let data := { data with dst := dst }
    let data := { data with src := src }
    let data := { data with size := size }
    DO_HSA_CALLBACK __callback ROCPROFILER_HSA_CB_ID_MEMCOPY
      (rocprofiler_hsa_callback_data_t.memcopy data) arg_
  | none => pure ()
  return status

/-! ### Example inputs -/

/-- A runtime in which every call succeeds, with the three agents 10, 11, 12
of which 10 and 12 have default access to every pool; allocation returns
address 4242; agent `a` resolves to device index `a - 10`. -/
def example_runtime : Runtime where
  hsa_memory_allocate_fn := fun _ _ => (HSA_STATUS_SUCCESS, 7)
  hsa_memory_assign_agent_fn := fun _ _ _ => HSA_STATUS_SUCCESS
  hsa_memory_copy_fn := fun _ _ _ => HSA_STATUS_SUCCESS
  hsa_amd_memory_pool_allocate_fn := fun _ _ _ => (HSA_STATUS_SUCCESS, 4242)
  hsa_amd_agents_allow_access_fn := fun _ _ _ _ => HSA_STATUS_SUCCESS
  hsa_amd_memory_async_copy_fn := fun _ _ _ _ _ _ _ _ => HSA_STATUS_SUCCESS
  hsa_region_get_info := fun _ _ => (HSA_STATUS_SUCCESS, 1)
  hsa_agent_get_info := fun a _ => (HSA_STATUS_SUCCESS, a % 2)
  hsa_amd_memory_pool_get_info := fun _ a =>
    (HSA_STATUS_SUCCESS, if a = HSA_AMD_MEMORY_POOL_INFO_SEGMENT then 5 else 6)
  hsa_amd_agent_memory_pool_get_info := fun a _ _ =>
    (HSA_STATUS_SUCCESS,
      if a = 11 then HSA_AMD_MEMORY_POOL_ACCESS_NEVER_ALLOWED
      else HSA_AMD_MEMORY_POOL_ACCESS_ALLOWED_BY_DEFAULT)
  system_agents := [10, 11, 12]
  dev_index := fun a => a - 10

/-- The runtime `example_runtime` with every call through a saved original
pointer failing with `HSA_STATUS_ERROR`. -/
def failing_runtime : Runtime :=
  { example_runtime with
    hsa_memory_allocate_fn := fun _ _ => (HSA_STATUS_ERROR, 0)
    hsa_memory_assign_agent_fn := fun _ _ _ => HSA_STATUS_ERROR
    hsa_memory_copy_fn := fun _ _ _ => HSA_STATUS_ERROR
    hsa_amd_memory_pool_allocate_fn := fun _ _ _ => (HSA_STATUS_ERROR, 0)
    hsa_amd_agents_allow_access_fn := fun _ _ _ _ => HSA_STATUS_ERROR
    hsa_amd_memory_async_copy_fn := fun _ _ _ _ _ _ _ _ => HSA_STATUS_ERROR }

/-- The runtime `example_runtime` with the device-type query of every agent
failing with `HSA_STATUS_ERROR`. -/
def example_runtime_no_agent_info : Runtime :=
  { example_runtime with hsa_agent_get_info := fun _ _ => (HSA_STATUS_ERROR, 0) }

/-- A callback set with only the Memcopy handler registered. -/
def only_memcopy : rocprofiler_hsa_callbacks_t :=
  { allocate := none, device := none, memcopy := some 3, submit := none }

/-- A callback set with only the Device handler registered. -/
def only_device : rocprofiler_hsa_callbacks_t :=
  { allocate := none, device := some 2, memcopy := none, submit := none }

/-- A callback set with the Allocate and Device handlers registered. -/
def allocate_and_device : rocprofiler_hsa_callbacks_t :=
  { allocate := some 1, device := some 2, memcopy := none, submit := none }

/-- A callback set with all four handlers registered. -/
def all_handlers : rocprofiler_hsa_callbacks_t :=
  { allocate := some 1, device := some 2, memcopy := some 3, submit := some 4 }

/-- A dispatch table whose six interceptable slots hold the functions
`other 1` to `other 6` and whose other slots hold further functions. -/
def example_table : HsaApiTable where
  core_ :=
    { hsa_memory_allocate_fn := fn_ptr.other 1
      hsa_memory_assign_agent_fn := fn_ptr.other 2
      hsa_memory_copy_fn := fn_ptr.other 3
      rest := [fn_ptr.other 10, fn_ptr.other 11] }
  amd_ext_ :=
    { hsa_amd_memory_pool_allocate_fn := fn_ptr.other 4
      hsa_amd_agents_allow_access_fn := fn_ptr.other 5
      hsa_amd_memory_async_copy_fn := fn_ptr.other 6
      rest := [fn_ptr.other 12] }
  rest := [fn_ptr.other 13, fn_ptr.other 14]

/-- Process-wide state before installation, with the given enable flag: the
saved pointers are null (`other 0`) and no handler is registered. -/
def example_globals (enable : Bool) : Globals where
  hsa_memory_allocate_fn := fn_ptr.other 0
  hsa_memory_assign_agent_fn := fn_ptr.other 0
  hsa_memory_copy_fn := fn_ptr.other 0
  hsa_amd_memory_pool_allocate_fn := fn_ptr.other 0
  hsa_amd_agents_allow_access_fn := fn_ptr.other 0
  hsa_amd_memory_async_copy_fn := fn_ptr.other 0
  enable_ := enable
  callbacks_ := { allocate := none, device := none, memcopy := none, submit := none }
  arg_ := 0

/-! ### Observations on a trace -/

/-- Whether an action is the invocation of a handler. -/
def Action.is_callback : Action → Bool
  | Action.callback _ _ _ _ => true
  | _ => false

/-- Whether an action is the invocation of a handler with identifier `id`. -/
def Action.is_event (id : rocprofiler_hsa_cb_id_t) : Action → Bool
  | Action.callback _ id2 _ _ => decide (id2 = id)
  | _ => false

/-- Whether an action is a call through one of the six saved original
pointers. -/
def Action.is_forward : Action → Bool
  | Action.hsa_memory_allocate_fn _ _ => true
  | Action.hsa_memory_assign_agent_fn _ _ _ => true
  | Action.hsa_memory_copy_fn _ _ _ => true
  | Action.hsa_amd_memory_pool_allocate_fn _ _ _ => true
  | Action.hsa_amd_agents_allow_access_fn _ _ _ _ => true
  | Action.hsa_amd_memory_async_copy_fn _ _ _ _ _ _ _ _ => true
  | _ => false

/-- Whether an action is one of those made while resolving agents and
reporting them: the agent enumeration, an access or device-type query, the
agent resolution, or a handler invocation with identifier Device. -/
def Action.in_device_scan : Action → Bool
  | Action.hsa_iterate_agents => true
  | Action.hsa_amd_agent_memory_pool_get_info _ _ _ => true
  | Action.GetAgentInfo _ => true
  | Action.hsa_agent_get_info _ _ => true
  | Action.callback _ id _ _ => decide (id = ROCPROFILER_HSA_CB_ID_DEVICE)
  | _ => false

/-- The Device event expected for agent `a` and memory `mem`: handler `hd`
invoked with the resolved device index of `a`, `mem`, and the device type the
runtime reports for `a`. -/
def device_event (rt : Runtime) (hd : rocprofiler_hsa_callback_fun_t) (arg : void_ptr)
    (mem : void_ptr) (a : hsa_agent_t) : Action :=
  Action.callback hd ROCPROFILER_HSA_CB_ID_DEVICE
    (rocprofiler_hsa_callback_data_t.device
      { id := rt.dev_index a, mem := mem, type := (rt.hsa_agent_get_info a HSA_AGENT_INFO_DEVICE).2 })
    arg

/-- The actions `DeviceCallback` is expected to make for agent `a`: resolve
it, query its device type, fire the Device event. -/
def device_actions (rt : Runtime) (hd : rocprofiler_hsa_callback_fun_t) (arg : void_ptr)
    (mem : void_ptr) (a : hsa_agent_t) : List Action :=
  [Action.GetAgentInfo a, Action.hsa_agent_get_info a HSA_AGENT_INFO_DEVICE,
    device_event rt hd arg mem a]

/-- Whether the runtime reports the access of agent `a` to `pool` as
allowed by default. -/
def default_access (rt : Runtime) (pool : hsa_amd_memory_pool_t) (a : hsa_agent_t) : Bool :=
  decide ((rt.hsa_amd_agent_memory_pool_get_info a pool HSA_AMD_AGENT_MEMORY_POOL_INFO_ACCESS).2
    = HSA_AMD_MEMORY_POOL_ACCESS_ALLOWED_BY_DEFAULT)

/-- The Allocate event expected from `MemoryPoolAllocate`: handler `ha`
invoked with the address stored by the forwarded call, the requested size, and
the segment and global flags queried from the pool. -/
def allocate_event (rt : Runtime) (ha : rocprofiler_hsa_callback_fun_t) (arg : void_ptr)
    (pool : hsa_amd_memory_pool_t) (size flags : Nat) : Action :=
  Action.callback ha ROCPROFILER_HSA_CB_ID_ALLOCATE
    (rocprofiler_hsa_callback_data_t.allocate
      { addr := (rt.hsa_amd_memory_pool_allocate_fn pool size flags).2
        size := size
        segment := (rt.hsa_amd_memory_pool_get_info pool HSA_AMD_MEMORY_POOL_INFO_SEGMENT).2
        global_flag :=
          (rt.hsa_amd_memory_pool_get_info pool HSA_AMD_MEMORY_POOL_INFO_GLOBAL_FLAGS).2 })
    arg

/-- The handler invocations of a trace, in order. -/
def events (tr : List Action) : List Action := tr.filter Action.is_callback

/-- The handler invocations with identifier `id` of a trace, in order. -/
def events_of (id : rocprofiler_hsa_cb_id_t) (tr : List Action) : List Action :=
  tr.filter (Action.is_event id)

/-! ## Properties of `HsaQueue::Submit` -/

theorem copy_loop_eq (nwords slot : Nat) (src : packet_t) :
    ∀ (n i : Nat), nwords ≤ i + n →
      copy_loop nwords slot src i n =
        (List.range' i (nwords - i)).map
          (fun w => Effect.store_word slot w (src w) mem_order.plain) := by
  intro n
  induction n with
  | zero =>
    intro i h
    have : nwords - i = 0 := by omega
    simp [copy_loop, this]
  | succ n ih =>
    intro i h
    unfold copy_loop
    by_cases hi : i < nwords
    · have e : nwords - i = (nwords - (i + 1)) + 1 := by omega
      rw [if_pos hi, ih (i + 1) (by omega), e, List.range'_succ]
      simp
    · have : nwords - i = 0 := by omega
      simp [hi, this]

theorem apply_effects_append (mem : ring_t) (xs ys : List Effect) :
    apply_effects mem (xs ++ ys) = apply_effects (apply_effects mem xs) ys := by
  simp [apply_effects, List.foldl_append]

theorem apply_effects_payload (slot : Nat) (src : packet_t) :
    ∀ (k i : Nat) (mem : ring_t),
      apply_effects mem ((List.range' i k).map
          (fun w => Effect.store_word slot w (src w) mem_order.plain)) =
        fun s w => if s = slot ∧ i ≤ w ∧ w < i + k then src w else mem s w := by
  intro k
  induction k with
  | zero =>
    intro i mem
    funext s w
    have : ¬ (s = slot ∧ i ≤ w ∧ w < i) := by omega
    simp [apply_effects, this]
  | succ k ih =>
    intro i mem
    have h := ih (i + 1) (store_slot_word mem slot i (src i))
    simp only [apply_effects] at h
    simp only [List.range'_succ, List.map_cons, apply_effects, List.foldl_cons, apply_effect]
    rw [h]
    funext s w
    simp only [store_slot_word]
    by_cases hs : s = slot
    · by_cases h1 : i + 1 ≤ w ∧ w < i + 1 + k
      · have h2 : i ≤ w ∧ w < i + (k + 1) := by omega
        simp [hs, h1, h2]
      · by_cases h3 : w = i
        · subst h3
          simp [hs]
        · have h2 : ¬ (i ≤ w ∧ w < i + (k + 1)) := by omega
          simp [hs, h1, h2, h3]
    · simp [hs]

/-- The effect log of `Submit`, spelled out. -/
theorem Submit_log (nwords : Nat) (q : hsa_queue_t) (p : packet_t) :
    (Submit nwords q p).2 =
      Effect.store_write_index (wrap64 (q.write_index + 1)) ::
        ((List.range' 1 (nwords - 1)).map
            (fun w => Effect.store_word (q.write_index &&& wrap32 (q.size + 2 ^ 32 - 1)) w (p w)
              mem_order.plain) ++
          [Effect.store_word (q.write_index &&& wrap32 (q.size + 2 ^ 32 - 1)) 0 (p 0)
              mem_order.release,
            Effect.signal_store (to_signal_value q.write_index)]) := by
  simp [Submit, hsa_queue_load_write_index_relaxed, copy_loop_eq nwords _ p nwords 1 (by omega)]

/-- Memory after the payload stores followed by the header store. -/
theorem apply_effects_packet (nwords slot : Nat) (p : packet_t) (mem : ring_t) :
    apply_effects mem
        ((List.range' 1 (nwords - 1)).map
            (fun w => Effect.store_word slot w (p w) mem_order.plain) ++
          [Effect.store_word slot 0 (p 0) mem_order.release]) =
      fun s w => if s = slot ∧ (w = 0 ∨ w < nwords) then p w else mem s w := by
  rw [apply_effects_append, apply_effects_payload]
  funext s w
  simp only [apply_effects, List.foldl_cons, List.foldl_nil, apply_effect, store_slot_word]
  by_cases hs : s = slot
  · by_cases h0 : w = 0
    · subst h0
      simp [hs]
    · by_cases h1 : w < nwords
      · have h2 : 1 ≤ w ∧ w < 1 + (nwords - 1) := by omega
        simp [hs, h0, h1, h2]
      · have h2 : ¬ (1 ≤ w ∧ w < 1 + (nwords - 1)) := by omega
        simp [hs, h0, h1, h2]
  · simp [hs]

/-- The ring after `Submit`, spelled out. -/
theorem Submit_mem (nwords : Nat) (q : hsa_queue_t) (p : packet_t) :
    (Submit nwords q p).1.base_address =
      fun s w =>
        if s = (q.write_index &&& wrap32 (q.size + 2 ^ 32 - 1)) ∧ (w = 0 ∨ w < nwords) then p w
        else q.base_address s w := by
  have h := apply_effects_packet nwords (q.write_index &&& wrap32 (q.size + 2 ^ 32 - 1)) p
    q.base_address
  simp only [Submit, hsa_queue_load_write_index_relaxed, hsa_queue_store_write_index_relaxed,
    hsa_signal_store_relaxed, copy_loop_eq nwords _ p nwords 1 (by omega)]
  exact h

theorem word_stores_append (xs ys : List Effect) :
    word_stores (xs ++ ys) = word_stores xs ++ word_stores ys := by
  induction xs with
  | nil => rfl
  | cons x xs ih => cases x <;> simp [word_stores, ih]

theorem word_stores_payload (slot : Nat) (p : packet_t) (l : List Nat) :
    word_stores (l.map (fun w => Effect.store_word slot w (p w) mem_order.plain)) =
      l.map (fun w => (slot, w, p w, mem_order.plain)) := by
  induction l with
  | nil => rfl
  | cons x xs ih => simp [word_stores, ih]

/-- C5: after `Submit(p)` the target slot holds the words of `p` (word 0 and
payload words `1 .. nwords-1`), every other slot (and every other word) of the
ring is unchanged, the stores to the slot are the payload words `1 .. nwords-1`
in order followed by the header word 0 as the last store (with release order),
and at any point of the run at which the header store has been made the slot
already holds the whole packet. -/
theorem Submit_publishes_packet (nwords : Nat) (q : hsa_queue_t) (p : packet_t) :
    (∀ w, (w = 0 ∨ w < nwords) →
      (Submit nwords q p).1.base_address (q.write_index &&& wrap32 (q.size + 2 ^ 32 - 1)) w
        = p w) ∧
    (∀ s w, ¬ (s = (q.write_index &&& wrap32 (q.size + 2 ^ 32 - 1)) ∧ (w = 0 ∨ w < nwords)) →
      (Submit nwords q p).1.base_address s w = q.base_address s w) ∧
    word_stores (Submit nwords q p).2 =
      (List.range' 1 (nwords - 1)).map
          (fun w => (q.write_index &&& wrap32 (q.size + 2 ^ 32 - 1), w, p w, mem_order.plain)) ++
        [(q.write_index &&& wrap32 (q.size + 2 ^ 32 - 1), 0, p 0, mem_order.release)] ∧
    (Submit nwords q p).1.base_address = apply_effects q.base_address (Submit nwords q p).2 ∧
    (∀ k,
      Effect.store_word (q.write_index &&& wrap32 (q.size + 2 ^ 32 - 1)) 0 (p 0)
          mem_order.release ∈ (Submit nwords q p).2.take k →
      ∀ w, (w = 0 ∨ w < nwords) →
        apply_effects q.base_address ((Submit nwords q p).2.take k)
          (q.write_index &&& wrap32 (q.size + 2 ^ 32 - 1)) w = p w) := by
  refine ⟨?_, ?_, ?_, ?_, ?_⟩
  · intro w hw
    have h : (q.write_index &&& wrap32 (q.size + 2 ^ 32 - 1)) =
        (q.write_index &&& wrap32 (q.size + 2 ^ 32 - 1)) ∧ (w = 0 ∨ w < nwords) := ⟨rfl, hw⟩
    rw [Submit_mem]
    exact if_pos h
  · intro s w hsw
    simp only [Submit_mem, if_neg hsw]
  · rw [Submit_log]
    simp [word_stores, word_stores_append, word_stores_payload]
  · rw [Submit_mem, Submit_log]
    have h := apply_effects_packet nwords (q.write_index &&& wrap32 (q.size + 2 ^ 32 - 1)) p
      q.base_address
    simp only [apply_effects, List.foldl_cons, List.foldl_append, List.foldl_nil,
      apply_effect] at h ⊢
    exact h.symm
  · intro k hk w hw
    rw [Submit_log] at hk ⊢
    have h := apply_effects_packet nwords (q.write_index &&& wrap32 (q.size + 2 ^ 32 - 1)) p
      q.base_address
    cases k with
    | zero => simp at hk
    | succ k =>
      simp only [List.take_succ_cons, List.mem_cons, List.take_append_eq_append_take,
        List.mem_append, List.length_map, List.length_range'] at hk
      rcases hk with hk | hk | hk
      · cases hk
      · have := List.mem_of_mem_take hk
        simp at this
      · have hk1 : 1 ≤ k - (nwords - 1) := by
          by_contra hc
          have : k - (nwords - 1) = 0 := by omega
          simp [this] at hk
        have hk2 : nwords - 1 ≤ k := by omega
        obtain ⟨m, hm⟩ : ∃ m, k - (nwords - 1) = m + 1 := ⟨k - (nwords - 1) - 1, by omega⟩
        simp only [List.take_succ_cons, List.take_append_eq_append_take, List.length_map,
          List.length_range', hm]
        rw [List.take_of_length_le (by simp; omega)]
        have h' := congrFun (congrFun h (q.write_index &&& wrap32 (q.size + 2 ^ 32 - 1))) w
        simp only [apply_effects, List.foldl_cons, List.foldl_append, List.foldl_nil,
          apply_effect] at h' ⊢
        cases m with
        | zero =>
          simp only [List.take_zero, List.foldl_nil]
          rw [h']
          simp [hw]
        | succ m =>
          simp only [List.take_succ_cons, List.take_nil, List.foldl_cons, List.foldl_nil,
            apply_effect]
          rw [h']
          simp [hw]

theorem wrap32_mask_pow2 (k : Nat) (hk : k < 32) : wrap32 (2 ^ k + 2 ^ 32 - 1) = 2 ^ k - 1 := by
  have h1 : 0 < 2 ^ k := Nat.two_pow_pos k
  have h2 : 2 ^ k < 2 ^ 32 := Nat.pow_lt_pow_right (by decide) hk
  unfold wrap32
  generalize 2 ^ k = S at h1 h2 ⊢
  omega

/-- With a power-of-two size the bitmask of `Submit` computes the index
modulo the size. -/
theorem mask_eq_mod (k : Nat) (hk : k < 32) (x : Nat) :
    x &&& wrap32 (2 ^ k + 2 ^ 32 - 1) = x % 2 ^ k := by
  rw [wrap32_mask_pow2 k hk, Nat.and_pow_two_sub_one_eq_mod]

theorem header_slots_append (xs ys : List Effect) :
    header_slots (xs ++ ys) = header_slots xs ++ header_slots ys := by
  induction xs with
  | nil => rfl
  | cons x xs ih =>
    cases x with
    | store_write_index v => simp [header_slots, ih]
    | signal_store v => simp [header_slots, ih]
    | store_word slot word value order =>
      cases word with
      | zero => simp [header_slots, ih]
      | succ n => simp [header_slots, ih]

theorem header_slots_payload (slot : Nat) (p : packet_t) :
    ∀ (n i : Nat), header_slots ((List.range' (i + 1) n).map
        (fun w => Effect.store_word slot w (p w) mem_order.plain)) = [] := by
  intro n
  induction n with
  | zero => intro i; rfl
  | succ n ih =>
    intro i
    simp only [List.range'_succ, List.map_cons, header_slots]
    exact ih (i + 1)

theorem written_slots_append (xs ys : List Effect) :
    written_slots (xs ++ ys) = written_slots xs ++ written_slots ys := by
  induction xs with
  | nil => rfl
  | cons x xs ih => cases x <;> simp [written_slots, ih]

theorem written_slots_payload (slot : Nat) (p : packet_t) :
    ∀ (n i : Nat), written_slots ((List.range' i n).map
        (fun w => Effect.store_word slot w (p w) mem_order.plain)) = List.replicate n slot := by
  intro n
  induction n with
  | zero => intro i; rfl
  | succ n ih =>
    intro i
    simp only [List.range'_succ, List.map_cons, written_slots, List.replicate_succ]
    rw [ih (i + 1)]

theorem Submit_header_slots (nwords : Nat) (q : hsa_queue_t) (p : packet_t) :
    header_slots (Submit nwords q p).2 = [q.write_index &&& wrap32 (q.size + 2 ^ 32 - 1)] := by
  rw [Submit_log]
  simp only [header_slots, header_slots_append]
  rw [header_slots_payload _ p (nwords - 1) 0]
  rfl

theorem Submit_written_slots (nwords : Nat) (q : hsa_queue_t) (p : packet_t) :
    written_slots (Submit nwords q p).2 =
      List.replicate (nwords - 1 + 1) (q.write_index &&& wrap32 (q.size + 2 ^ 32 - 1)) := by
  rw [Submit_log]
  simp only [written_slots, written_slots_append, written_slots_payload]
  rw [List.replicate_succ']

theorem Submit_write_index (nwords : Nat) (q : hsa_queue_t) (p : packet_t) :
    (Submit nwords q p).1.write_index = wrap64 (q.write_index + 1) := rfl

theorem Submit_size (nwords : Nat) (q : hsa_queue_t) (p : packet_t) :
    (Submit nwords q p).1.size = q.size := rfl

theorem mod_pow2_of_wrap64 (k : Nat) (hk : k < 32) (i j : Nat) :
    (wrap64 (i + 1) + j) % 2 ^ k = (i + (j + 1)) % 2 ^ k := by
  have hd : 2 ^ k ∣ 2 ^ 64 := Nat.pow_dvd_pow 2 (by omega)
  unfold wrap64
  rw [Nat.add_mod, Nat.mod_mod_of_dvd _ hd, ← Nat.add_mod]
  congr 1
  omega

theorem SubmitAll_run (nwords k : Nat) (hk : k < 32) :
    ∀ (ps : List packet_t) (q : hsa_queue_t), q.size = 2 ^ k → q.write_index < 2 ^ 64 →
      used_slots (SubmitAll nwords q ps).2 =
          (List.range ps.length).map (fun j => (q.write_index + j) % 2 ^ k) ∧
        (SubmitAll nwords q ps).2.map written_slots =
          (List.range ps.length).map
            (fun j => List.replicate (nwords - 1 + 1) ((q.write_index + j) % 2 ^ k)) ∧
        (SubmitAll nwords q ps).1.write_index = (q.write_index + ps.length) % 2 ^ 64 := by
  intro ps
  induction ps with
  | nil =>
    intro q _ hi
    refine ⟨rfl, rfl, ?_⟩
    simp only [SubmitAll, List.length_nil, Nat.add_zero]
    exact (Nat.mod_eq_of_lt hi).symm
  | cons p ps ih =>
    intro q hs hi
    have hlt : (Submit nwords q p).1.write_index < 2 ^ 64 := by
      rw [Submit_write_index]
      exact Nat.mod_lt _ (by decide)
    obtain ⟨h1, h2, h3⟩ := ih (Submit nwords q p).1 (by rw [Submit_size, hs]) hlt
    have hslot : (q.write_index &&& wrap32 (q.size + 2 ^ 32 - 1)) = q.write_index % 2 ^ k := by
      rw [hs, mask_eq_mod k hk]
    refine ⟨?_, ?_, ?_⟩
    · simp only [used_slots, SubmitAll, List.flatMap_cons, List.length_cons,
        List.range_succ_eq_map, List.map_cons, List.map_map] at h1 ⊢
      rw [Submit_header_slots, h1, hslot, Submit_write_index]
      simp only [List.singleton_append, Nat.add_zero, List.cons.injEq, true_and]
      apply List.map_congr_left
      intro j _
      simp only [Function.comp, Nat.succ_eq_add_one]
      exact mod_pow2_of_wrap64 k hk _ _
    · simp only [SubmitAll, List.length_cons, List.range_succ_eq_map, List.map_cons,
        List.map_map] at h2 ⊢
      rw [Submit_written_slots, h2, hslot, Submit_write_index]
      simp only [Nat.add_zero, List.cons.injEq, true_and]
      apply List.map_congr_left
      intro j _
      simp only [Function.comp, Nat.succ_eq_add_one]
      rw [mod_pow2_of_wrap64 k hk]
    · simp only [SubmitAll, List.length_cons]
      rw [h3, Submit_write_index]
      unfold wrap64
      omega

theorem drop_range'_eq : ∀ (a s n : Nat), List.drop a (List.range' s n) = List.range' (s + a) (n - a) := by
  intro a
  induction a with
  | zero => intro s n; simp
  | succ a ih =>
    intro s n
    cases n with
    | zero => simp
    | succ n =>
      rw [List.range'_succ, List.drop_succ_cons, ih]
      have e1 : s + 1 + a = s + (a + 1) := by omega
      have e2 : n + 1 - (a + 1) = n - a := by omega
      rw [e1, e2]

theorem take_range'_eq : ∀ (m s n : Nat), List.take m (List.range' s n) = List.range' s (min m n) := by
  intro m
  induction m with
  | zero => intro s n; simp
  | succ m ih =>
    intro s n
    cases n with
    | zero => simp
    | succ n =>
      rw [List.range'_succ, List.take_succ_cons, ih]
      have e : min (m + 1) (n + 1) = min m n + 1 := by omega
      rw [e, List.range'_succ]

/-- Within a window of `S` consecutive indices, reduction modulo `S`
takes no value twice. -/
theorem window_nodup (S i a K : Nat) :
    List.Nodup (List.take S (List.drop a ((List.range K).map (fun j => (i + j) % S)))) := by
  rw [← List.map_drop, ← List.map_take, List.range_eq_range', drop_range'_eq, take_range'_eq]
  apply List.Nodup.map_on _ (List.nodup_range' _ _)
  intro x hx y hy hxy
  simp only [List.mem_range'_1] at hx hy
  have hx2 : x < a + S := by omega
  have hy2 : y < a + S := by omega
  have hm : Nat.ModEq S (i + x) (i + y) := hxy
  have hm2 : Nat.ModEq S x y := Nat.ModEq.add_left_cancel' i hm
  rcases Nat.le_total x y with h | h
  · have hd : S ∣ y - x := (Nat.modEq_iff_dvd' h).1 hm2
    have : y - x = 0 := Nat.eq_zero_of_dvd_of_lt hd (by omega)
    omega
  · have hd : S ∣ x - y := (Nat.modEq_iff_dvd' h).1 hm2.symm
    have : x - y = 0 := Nat.eq_zero_of_dvd_of_lt hd (by omega)
    omega

theorem SubmitAll_append (nwords : Nat) :
    ∀ (xs ys : List packet_t) (q : hsa_queue_t),
      SubmitAll nwords q (xs ++ ys) =
        ((SubmitAll nwords (SubmitAll nwords q xs).1 ys).1,
          (SubmitAll nwords q xs).2 ++ (SubmitAll nwords (SubmitAll nwords q xs).1 ys).2) := by
  intro xs
  induction xs with
  | nil => intro ys q; rfl
  | cons x xs ih =>
    intro ys q
    have h := ih ys (Submit nwords q x).1
    show ((SubmitAll nwords (Submit nwords q x).1 (xs ++ ys)).1,
      (Submit nwords q x).2 :: (SubmitAll nwords (Submit nwords q x).1 (xs ++ ys)).2) = _
    rw [h]
    rfl

theorem SubmitAll_size (nwords : Nat) :
    ∀ (ps : List packet_t) (q : hsa_queue_t), (SubmitAll nwords q ps).1.size = q.size := by
  intro ps
  induction ps with
  | nil => intro q; rfl
  | cons p ps ih =>
    intro q
    simp only [SubmitAll, ih, Submit_size]

/-- The ring after `Submit` is the ring before with the effect log applied. -/
theorem Submit_mem_log (nwords : Nat) (q : hsa_queue_t) (p : packet_t) :
    (Submit nwords q p).1.base_address = apply_effects q.base_address (Submit nwords q p).2 := by
  rw [Submit_mem, Submit_log]
  have h := apply_effects_packet nwords (q.write_index &&& wrap32 (q.size + 2 ^ 32 - 1)) p
    q.base_address
  simp only [apply_effects, List.foldl_cons, List.foldl_append, List.foldl_nil,
    apply_effect] at h ⊢
  exact h.symm

theorem SubmitAll_mem_log (nwords : Nat) :
    ∀ (ps : List packet_t) (q : hsa_queue_t),
      (SubmitAll nwords q ps).1.base_address =
        apply_effects q.base_address (SubmitAll nwords q ps).2.flatten := by
  intro ps
  induction ps with
  | nil => intro q; rfl
  | cons p ps ih =>
    intro q
    simp only [SubmitAll, List.flatten_cons, apply_effects_append, ih, Submit_mem_log]

/-- Two indices less than `S` apart differ modulo `S`. -/
theorem mod_add_ne (S i t j : Nat) (htj : t < j) (hS : j - t < S) :
    (i + t) % S ≠ (i + j) % S := by
  intro hxy
  have hm : Nat.ModEq S (i + t) (i + j) := hxy
  have hm2 : Nat.ModEq S t j := Nat.ModEq.add_left_cancel' i hm
  have hd : S ∣ j - t := (Nat.modEq_iff_dvd' (Nat.le_of_lt htj)).1 hm2
  have : j - t = 0 := Nat.eq_zero_of_dvd_of_lt hd hS
  omega

/-- The ring after one more call of `Submit`, in terms of the ring before
that call. -/
theorem SubmitAll_step_mem (nwords k : Nat) (hk : k < 32) (q : hsa_queue_t)
    (ps : List packet_t) (hsize : q.size = 2 ^ k) (hidx : q.write_index < 2 ^ 64)
    (j : Nat) (p : packet_t) (hp : ps[j]? = some p) :
    (SubmitAll nwords q (ps.take (j + 1))).1.base_address =
      fun s w =>
        if s = (q.write_index + j) % q.size ∧ (w = 0 ∨ w < nwords) then p w
        else (SubmitAll nwords q (ps.take j)).1.base_address s w := by
  have hj : j < ps.length := (List.getElem?_eq_some_iff.1 hp).1
  have hlen : (ps.take j).length = j := List.length_take_of_le (Nat.le_of_lt hj)
  obtain ⟨_, _, hw⟩ := SubmitAll_run nwords k hk (ps.take j) q hsize hidx
  rw [hlen] at hw
  have hs : (SubmitAll nwords q (ps.take j)).1.size = 2 ^ k := by rw [SubmitAll_size, hsize]
  have hslot : ((SubmitAll nwords q (ps.take j)).1.write_index &&&
      wrap32 ((SubmitAll nwords q (ps.take j)).1.size + 2 ^ 32 - 1)) =
      (q.write_index + j) % q.size := by
    rw [hs, mask_eq_mod k hk, hw, hsize]
    exact Nat.mod_mod_of_dvd _ (Nat.pow_dvd_pow 2 (by omega))
  rw [List.take_succ, hp, Option.toList_some, SubmitAll_append]
  simp only [SubmitAll]
  rw [Submit_mem, hslot]

/-- After the whole run, each of the last `size` packets is in its slot. -/
theorem SubmitAll_last_mem (nwords k : Nat) (hk : k < 32) (q : hsa_queue_t)
    (ps : List packet_t) (hsize : q.size = 2 ^ k) (hidx : q.write_index < 2 ^ 64) :
    ∀ (n : Nat), n ≤ ps.length → ∀ (j : Nat) (p : packet_t), ps[j]? = some p → j < n →
      n - j ≤ q.size → ∀ w, (w = 0 ∨ w < nwords) →
        (SubmitAll nwords q (ps.take n)).1.base_address ((q.write_index + j) % q.size) w
          = p w := by
  intro n
  induction n with
  | zero => intro _ j p _ hj; omega
  | succ n ih =>
    intro hn j p hp hj hS w hw
    have hnlt : n < ps.length := by omega
    have hpn : ps[n]? = some (ps[n]) := List.getElem?_eq_getElem hnlt
    rw [SubmitAll_step_mem nwords k hk q ps hsize hidx n (ps[n]) hpn]
    by_cases hjn : j = n
    · subst hjn
      rw [hpn] at hp
      cases hp
      exact if_pos ⟨rfl, hw⟩
    · have hlt : j < n := by omega
      have hne : (q.write_index + j) % q.size ≠ (q.write_index + n) % q.size :=
        mod_add_ne q.size q.write_index j n hlt (by omega)
      have hc : ¬ ((q.write_index + j) % q.size = (q.write_index + n) % q.size ∧
          (w = 0 ∨ w < nwords)) := fun h => hne h.1
      simp only [if_neg hc]
      exact ih (by omega) j p hp hlt (by omega) w hw

/-- C4: on a queue whose size is a power of two, consecutive calls of
`Submit` by one producer, one per packet of `ps`, starting at write index `i`,
write to the slots `(i + j) mod size` for `j = 0, 1, ..., K-1` in that order:
call `j` changes the ring exactly by putting the words of packet `j` into slot
`(i + j) mod size`, every word store of call `j` goes to that slot, and the
ring at the end is the ring at the start with the logged stores applied.  The
write index is left at `(i + K) mod 2^64`.  No slot is used twice within
`size` consecutive submissions, so at the end each of the last `size` packets
is still in its slot; and the slot computed with the 32-bit bitmask equals the
index modulo the size. -/
theorem SubmitAll_slot_sequence (nwords k : Nat) (q : hsa_queue_t) (ps : List packet_t)
    (hk : k < 32) (hsize : q.size = 2 ^ k) (hidx : q.write_index < 2 ^ 64) :
    used_slots (SubmitAll nwords q ps).2 =
        (List.range ps.length).map (fun j => (q.write_index + j) % q.size) ∧
      (SubmitAll nwords q ps).2.map written_slots =
        (List.range ps.length).map
          (fun j => List.replicate (nwords - 1 + 1) ((q.write_index + j) % q.size)) ∧
      (SubmitAll nwords q ps).1.write_index = (q.write_index + ps.length) % 2 ^ 64 ∧
      (∀ a, List.Nodup (List.take q.size (List.drop a (used_slots (SubmitAll nwords q ps).2)))) ∧
      (∀ x, x &&& wrap32 (q.size + 2 ^ 32 - 1) = x % q.size) ∧
      (∀ j p, ps[j]? = some p →
        (SubmitAll nwords q (ps.take (j + 1))).1.base_address =
          fun s w =>
            if s = (q.write_index + j) % q.size ∧ (w = 0 ∨ w < nwords) then p w
            else (SubmitAll nwords q (ps.take j)).1.base_address s w) ∧
      (∀ j p, ps[j]? = some p → ps.length - j ≤ q.size → ∀ w, (w = 0 ∨ w < nwords) →
        (SubmitAll nwords q ps).1.base_address ((q.write_index + j) % q.size) w = p w) ∧
      (SubmitAll nwords q ps).1.base_address =
        apply_effects q.base_address (SubmitAll nwords q ps).2.flatten := by
  obtain ⟨h1, h2, h3⟩ := SubmitAll_run nwords k hk ps q hsize hidx
  rw [← hsize] at h1 h2
  refine ⟨h1, h2, h3, ?_, ?_, ?_, ?_, SubmitAll_mem_log nwords ps q⟩
  · intro a
    rw [h1]
    exact window_nodup q.size q.write_index a ps.length
  · intro x
    rw [hsize]
    exact mask_eq_mod k hk x
  · intro j p hp
    exact SubmitAll_step_mem nwords k hk q ps hsize hidx j p hp
  · intro j p hp hS w hw
    have hj : j < ps.length := (List.getElem?_eq_some_iff.1 hp).1
    have h := SubmitAll_last_mem nwords k hk q ps hsize hidx ps.length (Nat.le_refl _) j p hp hj
      hS w hw
    rw [List.take_length] at h
    exact h

/-- C4, on a concrete queue: size 4, write index `2^64 - 2`, three packets of
three words; the slots used are those of indices `2^64 - 2`, `2^64 - 1` and
`0` modulo 4, and at the end word 1 of the second packet is in the slot of
index `2^64 - 1`. -/
theorem SubmitAll_slot_sequence_witness :
    (2 < 32 ∧ example_queue.size = 2 ^ 2 ∧ example_queue.write_index < 2 ^ 64 ∧
      [example_packet 1, example_packet 2, example_packet 3][1]? = some (example_packet 2) ∧
      [example_packet 1, example_packet 2, example_packet 3].length - 1 ≤ example_queue.size) ∧
    (used_slots
        (SubmitAll 3 example_queue [example_packet 1, example_packet 2, example_packet 3]).2 =
        (List.range 3).map (fun j => (example_queue.write_index + j) % example_queue.size) ∧
      (SubmitAll 3 example_queue
          [example_packet 1, example_packet 2, example_packet 3]).1.write_index =
        (example_queue.write_index + 3) % 2 ^ 64 ∧
      (SubmitAll 3 example_queue
          ([example_packet 1, example_packet 2, example_packet 3].take (1 + 1))).1.base_address =
        (fun s w =>
          if s = (example_queue.write_index + 1) % example_queue.size ∧ (w = 0 ∨ w < 3) then
            example_packet 2 w
          else
            (SubmitAll 3 example_queue
              ([example_packet 1, example_packet 2, example_packet 3].take 1)).1.base_address
              s w) ∧
      (SubmitAll 3 example_queue
          [example_packet 1, example_packet 2, example_packet 3]).1.base_address
          ((example_queue.write_index + 1) % example_queue.size) 1 = example_packet 2 1) :=
  ⟨⟨by decide, rfl, by decide, rfl, by decide⟩,
    (SubmitAll_slot_sequence 3 2 example_queue
      [example_packet 1, example_packet 2, example_packet 3] (by decide) rfl (by decide)).1,
    (SubmitAll_slot_sequence 3 2 example_queue
      [example_packet 1, example_packet 2, example_packet 3] (by decide) rfl (by decide)).2.2.1,
    (SubmitAll_slot_sequence 3 2 example_queue
      [example_packet 1, example_packet 2, example_packet 3] (by decide) rfl
      (by decide)).2.2.2.2.2.1 1 (example_packet 2) rfl,
    (SubmitAll_slot_sequence 3 2 example_queue
      [example_packet 1, example_packet 2, example_packet 3] (by decide) rfl
      (by decide)).2.2.2.2.2.2.1 1 (example_packet 2) rfl (by decide) 1 (Or.inr (by decide))⟩

/-- C5, on a concrete queue: after submitting a three-word packet at write
index 5 of a four-slot queue, word 1 of slot 1 is word 1 of the packet,
word 1 of slot 2 is what it was, and once the header store is made (the first
four effects) word 2 of slot 1 is word 2 of the packet. -/
theorem Submit_publishes_packet_witness :
    (Submit 3 example_queue5 (example_packet 7)).1.base_address
        (example_queue5.write_index &&& wrap32 (example_queue5.size + 2 ^ 32 - 1)) 1
      = example_packet 7 1 ∧
    (Submit 3 example_queue5 (example_packet 7)).1.base_address 2 1
      = example_queue5.base_address 2 1 ∧
    (Effect.store_word (example_queue5.write_index &&& wrap32 (example_queue5.size + 2 ^ 32 - 1))
          0 (example_packet 7 0) mem_order.release ∈
        (Submit 3 example_queue5 (example_packet 7)).2.take 4 ∧
      apply_effects example_queue5.base_address
          ((Submit 3 example_queue5 (example_packet 7)).2.take 4)
          (example_queue5.write_index &&& wrap32 (example_queue5.size + 2 ^ 32 - 1)) 2
        = example_packet 7 2) :=
  ⟨(Submit_publishes_packet 3 example_queue5 (example_packet 7)).1 1 (Or.inr (by decide)),
    (Submit_publishes_packet 3 example_queue5 (example_packet 7)).2.1 2 1 (by decide),
    by decide,
    (Submit_publishes_packet 3 example_queue5 (example_packet 7)).2.2.2.2 4 (by decide) 2
      (Or.inr (by decide))⟩

theorem doorbell_values_append (xs ys : List Effect) :
    doorbell_values (xs ++ ys) = doorbell_values xs ++ doorbell_values ys := by
  induction xs with
  | nil => rfl
  | cons x xs ih => cases x <;> simp [doorbell_values, ih]

theorem doorbell_values_payload (slot : Nat) (p : packet_t) (l : List Nat) :
    doorbell_values (l.map (fun w => Effect.store_word slot w (p w) mem_order.plain)) = [] := by
  induction l with
  | nil => rfl
  | cons x xs ih => simp [doorbell_values, ih]

/-- C10 as stated fails: at write index 5 `Submit` leaves the write index at 6
and stores 5, not 6, to the doorbell signal. -/
theorem Submit_doorbell_counterexample :
    (Submit 16 example_queue5 (example_packet 7)).1.write_index = 6 ∧
    doorbell_values (Submit 16 example_queue5 (example_packet 7)).2 = [5] ∧
    (Submit 16 example_queue5 (example_packet 7)).1.doorbell_signal = 5 ∧
    doorbell_values (Submit 16 example_queue5 (example_packet 7)).2 ≠
      [to_signal_value (Submit 16 example_queue5 (example_packet 7)).1.write_index] := by
  refine ⟨by decide, ?_, by decide, ?_⟩
  · rw [Submit_log]
    simp [doorbell_values, doorbell_values_append, doorbell_values_payload, example_queue5,
      to_signal_value, wrap64]
  · rw [Submit_log, Submit_write_index]
    simp [doorbell_values, doorbell_values_append, doorbell_values_payload, example_queue5,
      to_signal_value, wrap64]

/-- C10, amended: for every queue state and every packet, `Submit` makes
exactly one store to the doorbell signal, and the value stored is the write
index as read at the start of the call (the index of the packet just written),
while the write index held when `Submit` returns is that index plus one modulo
`2^64`. -/
theorem Submit_doorbell_value (nwords : Nat) (q : hsa_queue_t) (p : packet_t) :
    doorbell_values (Submit nwords q p).2 = [to_signal_value q.write_index] ∧
    (Submit nwords q p).1.doorbell_signal = to_signal_value q.write_index ∧
    (Submit nwords q p).1.write_index = wrap64 (q.write_index + 1) := by
  refine ⟨?_, rfl, rfl⟩
  rw [Submit_log]
  simp [doorbell_values, doorbell_values_append, doorbell_values_payload]

/-! ## Properties of `HsaInterceptor` -/

theorem returned_bind {α β : Type} (m : Result α) (f : α → Result β) :
    (m >>= f).returned = m.returned.bind (fun a => (f a).returned) := by
  cases m with
  | ret a tr =>
    simp only [bind, Result.bind, Result.returned, Option.some_bind]
    cases f a <;> rfl
  | abort s w tr => rfl

theorem returned_pure {α : Type} (a : α) : (pure a : Result α).returned = some a := rfl

/-- The trace of a sequence: the trace of the first part, then that of the
second part if the first returned. -/
theorem trace_bind {α β : Type} (m : Result α) (f : α → Result β) :
    (m >>= f).trace =
      m.trace ++ (match m.returned with
        | some a => (f a).trace
        | none => []) := by
  cases m with
  | ret a tr =>
    simp only [bind, Result.bind, Result.returned, Result.trace]
    cases f a <;> rfl
  | abort s w tr => simp [bind, Result.bind, Result.returned, Result.trace]

/-- A property of actions that holds along both parts of a sequence holds
along the sequence. -/
theorem trace_bind_forall {α β : Type} (P : Action → Prop) (m : Result α) (f : α → Result β)
    (hm : ∀ a ∈ m.trace, P a) (hf : ∀ x, ∀ a ∈ (f x).trace, P a) :
    ∀ a ∈ (m >>= f).trace, P a := by
  intro a ha
  rw [trace_bind, List.mem_append] at ha
  rcases ha with ha | ha
  · exact hm a ha
  · cases hr : m.returned with
    | none => rw [hr] at ha; simp at ha
    | some x => rw [hr] at ha; exact hf x a ha

/-- C7: whatever the input and the callback set, each of the two deprecated
wrappers (region-based `MemoryAllocate` and `MemoryAssignAgent`) aborts at its
first statement with status `HSA_STATUS_ERROR` and the message
"Deprecated API": it returns nothing to its caller, has made no call through a
saved original pointer and has fired no event (its trace is empty). -/
theorem deprecated_wrappers_abort (rt : Runtime) (cb : rocprofiler_hsa_callbacks_t)
    (arg : void_ptr) (region : hsa_region_t) (size : Nat) (ptr : void_ptr) (agent : hsa_agent_t)
    (access : Nat) :
    (MemoryAllocate rt cb arg region size
        = Result.abort HSA_STATUS_ERROR "Deprecated API" [] ∧
      (MemoryAllocate rt cb arg region size).returned = none ∧
      (MemoryAllocate rt cb arg region size).trace.filter Action.is_forward = [] ∧
      events (MemoryAllocate rt cb arg region size).trace = []) ∧
    (MemoryAssignAgent rt cb arg ptr agent access
        = Result.abort HSA_STATUS_ERROR "Deprecated API" [] ∧
      (MemoryAssignAgent rt cb arg ptr agent access).returned = none ∧
      (MemoryAssignAgent rt cb arg ptr agent access).trace.filter Action.is_forward = [] ∧
      events (MemoryAssignAgent rt cb arg ptr agent access).trace = []) :=
  ⟨⟨rfl, rfl, rfl, rfl⟩, ⟨rfl, rfl, rfl, rfl⟩⟩

theorem MemoryCopy_fail (rt : Runtime) (cb : rocprofiler_hsa_callbacks_t) (arg : void_ptr)
    (dst src : void_ptr) (size : Nat)
    (h : rt.hsa_memory_copy_fn dst src size ≠ HSA_STATUS_SUCCESS) :
    MemoryCopy rt cb arg dst src size =
      Result.abort (rt.hsa_memory_copy_fn dst src size) "hsa_memory_copy_fn(dst, src, size)"
        [Action.hsa_memory_copy_fn dst src size] := by
  simp [MemoryCopy, HSA_RT, call_st, act, bind, pure, Result.bind, EXC_ABORT, h]

theorem MemoryCopy_ok (rt : Runtime) (cb : rocprofiler_hsa_callbacks_t) (arg : void_ptr)
    (dst src : void_ptr) (size : Nat)
    (h : rt.hsa_memory_copy_fn dst src size = HSA_STATUS_SUCCESS) :
    MemoryCopy rt cb arg dst src size =
      Result.ret HSA_STATUS_SUCCESS
        (Action.hsa_memory_copy_fn dst src size ::
          match cb.memcopy with
          | some f => [Action.callback f ROCPROFILER_HSA_CB_ID_MEMCOPY
              (rocprofiler_hsa_callback_data_t.memcopy { dst := dst, src := src, size := size })
              arg]
          | none => []) := by
  cases hc : cb.memcopy <;>
    simp [MemoryCopy, HSA_RT, call_st, act, bind, pure, Result.bind, EXC_ABORT, h, hc,
      IS_HSA_CALLBACK, DO_HSA_CALLBACK]

theorem MemoryAsyncCopy_fail (rt : Runtime) (cb : rocprofiler_hsa_callbacks_t) (arg : void_ptr)
    (dst : void_ptr) (dst_agent : hsa_agent_t) (src : void_ptr) (src_agent : hsa_agent_t)
    (size num_dep_signals : Nat) (dep_signals : void_ptr) (completion_signal : hsa_signal_t)
    (h : rt.hsa_amd_memory_async_copy_fn dst dst_agent src src_agent size num_dep_signals
      dep_signals completion_signal ≠ HSA_STATUS_SUCCESS) :
    MemoryAsyncCopy rt cb arg dst dst_agent src src_agent size num_dep_signals dep_signals
        completion_signal =
      Result.abort
        (rt.hsa_amd_memory_async_copy_fn dst dst_agent src src_agent size num_dep_signals
          dep_signals completion_signal)
        "hsa_amd_memory_async_copy_fn(dst, dst_agent, src, src_agent, size, num_dep_signals, dep_signals, completion_signal)"
        [Action.hsa_amd_memory_async_copy_fn dst dst_agent src src_agent size num_dep_signals
          dep_signals completion_signal] := by
  simp [MemoryAsyncCopy, HSA_RT, call_st, act, bind, pure, Result.bind, EXC_ABORT, h]

theorem MemoryAsyncCopy_ok (rt : Runtime) (cb : rocprofiler_hsa_callbacks_t) (arg : void_ptr)
    (dst : void_ptr) (dst_agent : hsa_agent_t) (src : void_ptr) (src_agent : hsa_agent_t)
    (size num_dep_signals : Nat) (dep_signals : void_ptr) (completion_signal : hsa_signal_t)
    (h : rt.hsa_amd_memory_async_copy_fn dst dst_agent src src_agent size num_dep_signals
      dep_signals completion_signal = HSA_STATUS_SUCCESS) :
    MemoryAsyncCopy rt cb arg dst dst_agent src src_agent size num_dep_signals dep_signals
        completion_signal =
      Result.ret HSA_STATUS_SUCCESS
        (Action.hsa_amd_memory_async_copy_fn dst dst_agent src src_agent size num_dep_signals
            dep_signals completion_signal ::
          match cb.memcopy with
          | some f => [Action.callback f ROCPROFILER_HSA_CB_ID_MEMCOPY
              (rocprofiler_hsa_callback_data_t.memcopy { dst := dst, src := src, size := size })
              arg]
          | none => []) := by
  cases hc : cb.memcopy <;>
    simp [MemoryAsyncCopy, HSA_RT, call_st, act, bind, pure, Result.bind, EXC_ABORT, h, hc,
      IS_HSA_CALLBACK, DO_HSA_CALLBACK]

theorem returned_bind_const {α β : Type} (c : β) (m : Result α) (f : α → Result β)
    (hf : ∀ a s, (f a).returned = some s → s = c) :
    ∀ s, (m >>= f).returned = some s → s = c := by
  intro s h
  rw [returned_bind] at h
  cases hm : m.returned with
  | none => rw [hm] at h; simp at h
  | some a => rw [hm] at h; exact hf a s h

theorem returned_pure_const {α : Type} (c : α) :
    ∀ s, (pure c : Result α).returned = some s → s = c := by
  intro s h
  cases h
  rfl

theorem MemoryPoolAllocate_fail (rt : Runtime) (cb : rocprofiler_hsa_callbacks_t) (arg : void_ptr)
    (pool : hsa_amd_memory_pool_t) (size flags : Nat)
    (h : (rt.hsa_amd_memory_pool_allocate_fn pool size flags).1 ≠ HSA_STATUS_SUCCESS) :
    MemoryPoolAllocate rt cb arg pool size flags =
      Result.abort (rt.hsa_amd_memory_pool_allocate_fn pool size flags).1
        "hsa_amd_memory_pool_allocate_fn(pool, size, flags, ptr)"
        [Action.hsa_amd_memory_pool_allocate_fn pool size flags] := by
  simp [MemoryPoolAllocate, HSA_RT, call_out, act, bind, pure, Result.bind, EXC_ABORT, h]

theorem MemoryPoolAllocate_returned (rt : Runtime) (cb : rocprofiler_hsa_callbacks_t)
    (arg : void_ptr) (pool : hsa_amd_memory_pool_t) (size flags : Nat) :
    ∀ s, (MemoryPoolAllocate rt cb arg pool size flags).returned = some s →
      s = HSA_STATUS_SUCCESS := by
  unfold MemoryPoolAllocate
  cases hA : IS_HSA_CALLBACK cb ROCPROFILER_HSA_CB_ID_ALLOCATE <;>
  cases hD : IS_HSA_CALLBACK cb ROCPROFILER_HSA_CB_ID_DEVICE <;>
  simp only [] <;>
  repeat (first | exact returned_pure_const _ | (apply returned_bind_const; intro _))

theorem AgentsAllowAccess_fail (rt : Runtime) (cb : rocprofiler_hsa_callbacks_t) (arg : void_ptr)
    (num_agents : Nat) (agents : Nat → hsa_agent_t) (flags ptr : void_ptr)
    (h : rt.hsa_amd_agents_allow_access_fn num_agents agents flags ptr ≠ HSA_STATUS_SUCCESS) :
    AgentsAllowAccess rt cb arg num_agents agents flags ptr =
      Result.abort (rt.hsa_amd_agents_allow_access_fn num_agents agents flags ptr)
        "hsa_amd_agents_allow_access_fn(num_agents, agents, flags, ptr)"
        [Action.hsa_amd_agents_allow_access_fn num_agents ((List.range num_agents).map agents)
          flags ptr] := by
  simp [AgentsAllowAccess, HSA_RT, call_st, act, bind, pure, Result.bind, EXC_ABORT, h]

theorem AgentsAllowAccess_returned (rt : Runtime) (cb : rocprofiler_hsa_callbacks_t)
    (arg : void_ptr) (num_agents : Nat) (agents : Nat → hsa_agent_t) (flags ptr : void_ptr) :
    ∀ s, (AgentsAllowAccess rt cb arg num_agents agents flags ptr).returned = some s →
      s = HSA_STATUS_SUCCESS := by
  unfold AgentsAllowAccess
  cases hD : IS_HSA_CALLBACK cb ROCPROFILER_HSA_CB_ID_DEVICE <;>
  simp only [] <;>
  repeat (first | exact returned_pure_const _ | (apply returned_bind_const; intro _))

/-- C6: for each of the four live wrappers (`MemoryPoolAllocate`,
`AgentsAllowAccess`, `MemoryCopy`, `MemoryAsyncCopy`), every input and every
callback set: if the call through the saved original pointer returns a status
other than success, the wrapper aborts with that status right after that call,
returning nothing to the caller and having fired no event; and whenever the
wrapper returns a status to its caller, the forwarded call returned success
and the status returned is success. -/
theorem wrappers_abort_on_failure (rt : Runtime) (cb : rocprofiler_hsa_callbacks_t)
    (arg : void_ptr) (pool : hsa_amd_memory_pool_t) (size flags : Nat) (num_agents : Nat)
    (agents : Nat → hsa_agent_t) (aflags ptr dst src : void_ptr) (dst_agent src_agent : hsa_agent_t)
    (num_dep_signals : Nat) (dep_signals : void_ptr) (completion_signal : hsa_signal_t) :
    (((rt.hsa_amd_memory_pool_allocate_fn pool size flags).1 ≠ HSA_STATUS_SUCCESS →
        MemoryPoolAllocate rt cb arg pool size flags =
            Result.abort (rt.hsa_amd_memory_pool_allocate_fn pool size flags).1
              "hsa_amd_memory_pool_allocate_fn(pool, size, flags, ptr)"
              [Action.hsa_amd_memory_pool_allocate_fn pool size flags] ∧
          (MemoryPoolAllocate rt cb arg pool size flags).returned = none ∧
          events (MemoryPoolAllocate rt cb arg pool size flags).trace = []) ∧
      (∀ s, (MemoryPoolAllocate rt cb arg pool size flags).returned = some s →
        (rt.hsa_amd_memory_pool_allocate_fn pool size flags).1 = HSA_STATUS_SUCCESS ∧
          s = HSA_STATUS_SUCCESS)) ∧
    ((rt.hsa_amd_agents_allow_access_fn num_agents agents aflags ptr ≠ HSA_STATUS_SUCCESS →
        AgentsAllowAccess rt cb arg num_agents agents aflags ptr =
            Result.abort (rt.hsa_amd_agents_allow_access_fn num_agents agents aflags ptr)
              "hsa_amd_agents_allow_access_fn(num_agents, agents, flags, ptr)"
              [Action.hsa_amd_agents_allow_access_fn num_agents
                ((List.range num_agents).map agents) aflags ptr] ∧
          (AgentsAllowAccess rt cb arg num_agents agents aflags ptr).returned = none ∧
          events (AgentsAllowAccess rt cb arg num_agents agents aflags ptr).trace = []) ∧
      (∀ s, (AgentsAllowAccess rt cb arg num_agents agents aflags ptr).returned = some s →
        rt.hsa_amd_agents_allow_access_fn num_agents agents aflags ptr = HSA_STATUS_SUCCESS ∧
          s = HSA_STATUS_SUCCESS)) ∧
    ((rt.hsa_memory_copy_fn dst src size ≠ HSA_STATUS_SUCCESS →
        MemoryCopy rt cb arg dst src size =
            Result.abort (rt.hsa_memory_copy_fn dst src size)
              "hsa_memory_copy_fn(dst, src, size)" [Action.hsa_memory_copy_fn dst src size] ∧
          (MemoryCopy rt cb arg dst src size).returned = none ∧
          events (MemoryCopy rt cb arg dst src size).trace = []) ∧
      (∀ s, (MemoryCopy rt cb arg dst src size).returned = some s →
        rt.hsa_memory_copy_fn dst src size = HSA_STATUS_SUCCESS ∧ s = HSA_STATUS_SUCCESS)) ∧
    ((rt.hsa_amd_memory_async_copy_fn dst dst_agent src src_agent size num_dep_signals
          dep_signals completion_signal ≠ HSA_STATUS_SUCCESS →
        MemoryAsyncCopy rt cb arg dst dst_agent src src_agent size num_dep_signals dep_signals
              completion_signal =
            Result.abort
              (rt.hsa_amd_memory_async_copy_fn dst dst_agent src src_agent size num_dep_signals
                dep_signals completion_signal)
              "hsa_amd_memory_async_copy_fn(dst, dst_agent, src, src_agent, size, num_dep_signals, dep_signals, completion_signal)"
              [Action.hsa_amd_memory_async_copy_fn dst dst_agent src src_agent size
                num_dep_signals dep_signals completion_signal] ∧
          (MemoryAsyncCopy rt cb arg dst dst_agent src src_agent size num_dep_signals dep_signals
            completion_signal).returned = none ∧
          events (MemoryAsyncCopy rt cb arg dst dst_agent src src_agent size num_dep_signals
            dep_signals completion_signal).trace = []) ∧
      (∀ s, (MemoryAsyncCopy rt cb arg dst dst_agent src src_agent size num_dep_signals
            dep_signals completion_signal).returned = some s →
        rt.hsa_amd_memory_async_copy_fn dst dst_agent src src_agent size num_dep_signals
            dep_signals completion_signal = HSA_STATUS_SUCCESS ∧ s = HSA_STATUS_SUCCESS)) := by
  refine ⟨⟨?_, ?_⟩, ⟨?_, ?_⟩, ⟨?_, ?_⟩, ⟨?_, ?_⟩⟩
  · intro h
    rw [MemoryPoolAllocate_fail rt cb arg pool size flags h]
    exact ⟨rfl, rfl, rfl⟩
  · intro s hs
    refine ⟨?_, MemoryPoolAllocate_returned rt cb arg pool size flags s hs⟩
    by_contra h
    rw [MemoryPoolAllocate_fail rt cb arg pool size flags h] at hs
    cases hs
  · intro h
    rw [AgentsAllowAccess_fail rt cb arg num_agents agents aflags ptr h]
    exact ⟨rfl, rfl, rfl⟩
  · intro s hs
    refine ⟨?_, AgentsAllowAccess_returned rt cb arg num_agents agents aflags ptr s hs⟩
    by_contra h
    rw [AgentsAllowAccess_fail rt cb arg num_agents agents aflags ptr h] at hs
    cases hs
  · intro h
    rw [MemoryCopy_fail rt cb arg dst src size h]
    exact ⟨rfl, rfl, rfl⟩
  · intro s hs
    by_cases h : rt.hsa_memory_copy_fn dst src size = HSA_STATUS_SUCCESS
    · rw [MemoryCopy_ok rt cb arg dst src size h] at hs
      cases hs
      exact ⟨h, rfl⟩
    · rw [MemoryCopy_fail rt cb arg dst src size h] at hs
      cases hs
  · intro h
    rw [MemoryAsyncCopy_fail rt cb arg dst dst_agent src src_agent size num_dep_signals
      dep_signals completion_signal h]
    exact ⟨rfl, rfl, rfl⟩
  · intro s hs
    by_cases h : rt.hsa_amd_memory_async_copy_fn dst dst_agent src src_agent size
        num_dep_signals dep_signals completion_signal = HSA_STATUS_SUCCESS
    · rw [MemoryAsyncCopy_ok rt cb arg dst dst_agent src src_agent size num_dep_signals
        dep_signals completion_signal h] at hs
      cases hs
      exact ⟨h, rfl⟩
    · rw [MemoryAsyncCopy_fail rt cb arg dst dst_agent src src_agent size num_dep_signals
        dep_signals completion_signal h] at hs
      cases hs

/-- C6, on concrete inputs: with every forwarded call failing each wrapper
returns nothing and fires no event; with every call succeeding each wrapper
returns success. -/
theorem wrappers_abort_on_failure_witness :
    (((MemoryPoolAllocate failing_runtime all_handlers 99 3 64 0).returned = none ∧
        events (MemoryPoolAllocate failing_runtime all_handlers 99 3 64 0).trace = []) ∧
      ((example_runtime.hsa_amd_memory_pool_allocate_fn 3 64 0).1 = HSA_STATUS_SUCCESS ∧
        HSA_STATUS_SUCCESS = HSA_STATUS_SUCCESS)) ∧
    (((AgentsAllowAccess failing_runtime all_handlers 99 2 (fun j => 20 + j) 0 555).returned
          = none ∧
        events (AgentsAllowAccess failing_runtime all_handlers 99 2 (fun j => 20 + j) 0 555).trace
          = []) ∧
      (example_runtime.hsa_amd_agents_allow_access_fn 2 (fun j => 20 + j) 0 555
          = HSA_STATUS_SUCCESS ∧
        HSA_STATUS_SUCCESS = HSA_STATUS_SUCCESS)) ∧
    (((MemoryCopy failing_runtime all_handlers 99 1 2 64).returned = none ∧
        events (MemoryCopy failing_runtime all_handlers 99 1 2 64).trace = []) ∧
      (example_runtime.hsa_memory_copy_fn 1 2 64 = HSA_STATUS_SUCCESS ∧
        HSA_STATUS_SUCCESS = HSA_STATUS_SUCCESS)) ∧
    (((MemoryAsyncCopy failing_runtime all_handlers 99 1 7 2 8 64 0 0 9).returned = none ∧
        events (MemoryAsyncCopy failing_runtime all_handlers 99 1 7 2 8 64 0 0 9).trace = []) ∧
      (example_runtime.hsa_amd_memory_async_copy_fn 1 7 2 8 64 0 0 9 = HSA_STATUS_SUCCESS ∧
        HSA_STATUS_SUCCESS = HSA_STATUS_SUCCESS)) :=
  ⟨⟨((wrappers_abort_on_failure failing_runtime all_handlers 99 3 64 0 2 (fun j => 20 + j) 0 555
        1 2 7 8 0 0 9).1.1 (by decide)).2,
      (wrappers_abort_on_failure example_runtime all_handlers 99 3 64 0 2 (fun j => 20 + j) 0 555
        1 2 7 8 0 0 9).1.2 HSA_STATUS_SUCCESS rfl⟩,
    ⟨((wrappers_abort_on_failure failing_runtime all_handlers 99 3 64 0 2 (fun j => 20 + j) 0 555
        1 2 7 8 0 0 9).2.1.1 (by decide)).2,
      (wrappers_abort_on_failure example_runtime all_handlers 99 3 64 0 2 (fun j => 20 + j) 0 555
        1 2 7 8 0 0 9).2.1.2 HSA_STATUS_SUCCESS rfl⟩,
    ⟨((wrappers_abort_on_failure failing_runtime all_handlers 99 3 64 0 2 (fun j => 20 + j) 0 555
        1 2 7 8 0 0 9).2.2.1.1 (by decide)).2,
      (wrappers_abort_on_failure example_runtime all_handlers 99 3 64 0 2 (fun j => 20 + j) 0 555
        1 2 7 8 0 0 9).2.2.1.2 HSA_STATUS_SUCCESS rfl⟩,
    ⟨((wrappers_abort_on_failure failing_runtime all_handlers 99 3 64 0 2 (fun j => 20 + j) 0 555
        1 2 7 8 0 0 9).2.2.2.1 (by decide)).2,
      (wrappers_abort_on_failure example_runtime all_handlers 99 3 64 0 2 (fun j => 20 + j) 0 555
        1 2 7 8 0 0 9).2.2.2.2 HSA_STATUS_SUCCESS rfl⟩⟩

/-- C8: for every destination, source and size (and every agent and signal
argument of the async variant) and every callback set whose Memcopy slot holds
a handler `f` (in particular when only a Memcopy handler is registered): when
the forwarded copy succeeds, `MemoryCopy` and `MemoryAsyncCopy` each return
success after the forwarded call followed by exactly one handler invocation,
of `f` with identifier Memcopy, payload `{dst, src, size}` equal to the call's
arguments and the registered context; no Allocate, Device or Submit event is
fired. -/
theorem memcopy_fires_one_event (rt : Runtime) (cb : rocprofiler_hsa_callbacks_t)
    (f : rocprofiler_hsa_callback_fun_t) (arg : void_ptr) (dst src : void_ptr) (size : Nat)
    (dst_agent src_agent : hsa_agent_t) (num_dep_signals : Nat) (dep_signals : void_ptr)
    (completion_signal : hsa_signal_t) (hcb : cb.memcopy = some f) :
    (rt.hsa_memory_copy_fn dst src size = HSA_STATUS_SUCCESS →
      MemoryCopy rt cb arg dst src size =
          Result.ret HSA_STATUS_SUCCESS
            [Action.hsa_memory_copy_fn dst src size,
              Action.callback f ROCPROFILER_HSA_CB_ID_MEMCOPY
                (rocprofiler_hsa_callback_data_t.memcopy { dst := dst, src := src, size := size })
                arg] ∧
        events (MemoryCopy rt cb arg dst src size).trace =
          [Action.callback f ROCPROFILER_HSA_CB_ID_MEMCOPY
            (rocprofiler_hsa_callback_data_t.memcopy { dst := dst, src := src, size := size })
            arg] ∧
        events_of ROCPROFILER_HSA_CB_ID_ALLOCATE (MemoryCopy rt cb arg dst src size).trace = [] ∧
        events_of ROCPROFILER_HSA_CB_ID_DEVICE (MemoryCopy rt cb arg dst src size).trace = [] ∧
        events_of ROCPROFILER_HSA_CB_ID_SUBMIT (MemoryCopy rt cb arg dst src size).trace = []) ∧
    (rt.hsa_amd_memory_async_copy_fn dst dst_agent src src_agent size num_dep_signals
        dep_signals completion_signal = HSA_STATUS_SUCCESS →
      MemoryAsyncCopy rt cb arg dst dst_agent src src_agent size num_dep_signals dep_signals
            completion_signal =
          Result.ret HSA_STATUS_SUCCESS
            [Action.hsa_amd_memory_async_copy_fn dst dst_agent src src_agent size
                num_dep_signals dep_signals completion_signal,
              Action.callback f ROCPROFILER_HSA_CB_ID_MEMCOPY
                (rocprofiler_hsa_callback_data_t.memcopy { dst := dst, src := src, size := size })
                arg] ∧
        events (MemoryAsyncCopy rt cb arg dst dst_agent src src_agent size num_dep_signals
            dep_signals completion_signal).trace =
          [Action.callback f ROCPROFILER_HSA_CB_ID_MEMCOPY
            (rocprofiler_hsa_callback_data_t.memcopy { dst := dst, src := src, size := size })
            arg] ∧
        events_of ROCPROFILER_HSA_CB_ID_ALLOCATE
          (MemoryAsyncCopy rt cb arg dst dst_agent src src_agent size num_dep_signals
            dep_signals completion_signal).trace = [] ∧
        events_of ROCPROFILER_HSA_CB_ID_DEVICE
          (MemoryAsyncCopy rt cb arg dst dst_agent src src_agent size num_dep_signals
            dep_signals completion_signal).trace = [] ∧
        events_of ROCPROFILER_HSA_CB_ID_SUBMIT
          (MemoryAsyncCopy rt cb arg dst dst_agent src src_agent size num_dep_signals
            dep_signals completion_signal).trace = []) := by
  constructor
  · intro h
    rw [MemoryCopy_ok rt cb arg dst src size h, hcb]
    exact ⟨rfl, rfl, rfl, rfl, rfl⟩
  · intro h
    rw [MemoryAsyncCopy_ok rt cb arg dst dst_agent src src_agent size num_dep_signals
      dep_signals completion_signal h, hcb]
    exact ⟨rfl, rfl, rfl, rfl, rfl⟩

/-- C8, the scenario of the spec: only a Memcopy handler registered, a copy of
4096 bytes from buffer 2 to buffer 1. -/
theorem memcopy_fires_one_event_witness :
    only_memcopy.memcopy = some 3 ∧
    (example_runtime.hsa_memory_copy_fn 1 2 4096 = HSA_STATUS_SUCCESS ∧
      events (MemoryCopy example_runtime only_memcopy 99 1 2 4096).trace =
        [Action.callback 3 ROCPROFILER_HSA_CB_ID_MEMCOPY
          (rocprofiler_hsa_callback_data_t.memcopy { dst := 1, src := 2, size := 4096 }) 99] ∧
      events_of ROCPROFILER_HSA_CB_ID_ALLOCATE
        (MemoryCopy example_runtime only_memcopy 99 1 2 4096).trace = [] ∧
      events_of ROCPROFILER_HSA_CB_ID_DEVICE
        (MemoryCopy example_runtime only_memcopy 99 1 2 4096).trace = [] ∧
      events_of ROCPROFILER_HSA_CB_ID_SUBMIT
        (MemoryCopy example_runtime only_memcopy 99 1 2 4096).trace = []) ∧
    (example_runtime.hsa_amd_memory_async_copy_fn 1 7 2 8 4096 0 0 9 = HSA_STATUS_SUCCESS ∧
      events (MemoryAsyncCopy example_runtime only_memcopy 99 1 7 2 8 4096 0 0 9).trace =
        [Action.callback 3 ROCPROFILER_HSA_CB_ID_MEMCOPY
          (rocprofiler_hsa_callback_data_t.memcopy { dst := 1, src := 2, size := 4096 }) 99]) :=
  ⟨rfl,
    ⟨rfl, ((memcopy_fires_one_event example_runtime only_memcopy 3 99 1 2 4096 7 8 0 0 9 rfl).1
      rfl).2⟩,
    ⟨rfl, ((memcopy_fires_one_event example_runtime only_memcopy 3 99 1 2 4096 7 8 0 0 9 rfl).2
      rfl).2.1⟩⟩

/-- C3: for every dispatch table `t`: if the enable flag is false,
`HsaIntercept` leaves the table and the process-wide state (the six saved
original pointers included) exactly as they were; if the enable flag is true,
afterwards each of the six saved original pointers equals what the
corresponding slot of `t` held before the call, each of the six slots
(allocate, assign-agent, copy, pool-allocate, allow-access, async-copy) holds
its matching wrapper, and every other slot of `t` is unchanged. -/
theorem HsaIntercept_effect (g : Globals) (t : HsaApiTable) :
    (g.enable_ = false → (HsaIntercept g t).1 = g ∧ (HsaIntercept g t).2.1 = t) ∧
    (g.enable_ = true →
      ((HsaIntercept g t).1.hsa_memory_allocate_fn = t.core_.hsa_memory_allocate_fn ∧
        (HsaIntercept g t).1.hsa_memory_assign_agent_fn = t.core_.hsa_memory_assign_agent_fn ∧
        (HsaIntercept g t).1.hsa_memory_copy_fn = t.core_.hsa_memory_copy_fn ∧
        (HsaIntercept g t).1.hsa_amd_memory_pool_allocate_fn =
          t.amd_ext_.hsa_amd_memory_pool_allocate_fn ∧
        (HsaIntercept g t).1.hsa_amd_agents_allow_access_fn =
          t.amd_ext_.hsa_amd_agents_allow_access_fn ∧
        (HsaIntercept g t).1.hsa_amd_memory_async_copy_fn =
          t.amd_ext_.hsa_amd_memory_async_copy_fn) ∧
      ((HsaIntercept g t).2.1.core_.hsa_memory_allocate_fn = fn_ptr.MemoryAllocate ∧
        (HsaIntercept g t).2.1.core_.hsa_memory_assign_agent_fn = fn_ptr.MemoryAssignAgent ∧
        (HsaIntercept g t).2.1.core_.hsa_memory_copy_fn = fn_ptr.MemoryCopy ∧
        (HsaIntercept g t).2.1.amd_ext_.hsa_amd_memory_pool_allocate_fn =
          fn_ptr.MemoryPoolAllocate ∧
        (HsaIntercept g t).2.1.amd_ext_.hsa_amd_agents_allow_access_fn =
          fn_ptr.AgentsAllowAccess ∧
        (HsaIntercept g t).2.1.amd_ext_.hsa_amd_memory_async_copy_fn = fn_ptr.MemoryAsyncCopy) ∧
      ((HsaIntercept g t).2.1.core_.rest = t.core_.rest ∧
        (HsaIntercept g t).2.1.amd_ext_.rest = t.amd_ext_.rest ∧
        (HsaIntercept g t).2.1.rest = t.rest) ∧
      ((HsaIntercept g t).1.enable_ = g.enable_ ∧
        (HsaIntercept g t).1.callbacks_ = g.callbacks_ ∧
        (HsaIntercept g t).1.arg_ = g.arg_)) := by
  constructor
  · intro h
    simp [HsaIntercept, h]
  · intro h
    simp [HsaIntercept, h]

/-- C3, on a concrete table: with the flag off the table keeps its six real
entries; with the flag on the allocate slot holds the wrapper and the saved
pointer holds the real entry. -/
theorem HsaIntercept_effect_witness :
    ((example_globals false).enable_ = false ∧
      (HsaIntercept (example_globals false) example_table).1 = example_globals false ∧
      (HsaIntercept (example_globals false) example_table).2.1 = example_table) ∧
    ((example_globals true).enable_ = true ∧
      (HsaIntercept (example_globals true) example_table).1.hsa_memory_allocate_fn =
        example_table.core_.hsa_memory_allocate_fn ∧
      (HsaIntercept (example_globals true) example_table).2.1.core_.hsa_memory_allocate_fn =
        fn_ptr.MemoryAllocate ∧
      (HsaIntercept (example_globals true) example_table).2.1.rest = example_table.rest) :=
  ⟨⟨rfl, (HsaIntercept_effect (example_globals false) example_table).1 rfl⟩,
    ⟨rfl, ((HsaIntercept_effect (example_globals true) example_table).2 rfl).1.1,
      ((HsaIntercept_effect (example_globals true) example_table).2 rfl).2.1.1,
      ((HsaIntercept_effect (example_globals true) example_table).2 rfl).2.2.1.2.2⟩⟩

/-! ### `DeviceCallback`, `AgentCallback` and the agent traversal -/

theorem DeviceCallback_body_ok (rt : Runtime) (cb : rocprofiler_hsa_callbacks_t)
    (hd : rocprofiler_hsa_callback_fun_t) (arg : void_ptr) (a : hsa_agent_t) (ptr : void_ptr)
    (hcb : cb.device = some hd)
    (hq : (rt.hsa_agent_get_info a HSA_AGENT_INFO_DEVICE).1 = HSA_STATUS_SUCCESS) :
    DeviceCallback_body rt cb arg a ptr = Result.ret () (device_actions rt hd arg ptr a) := by
  simp [DeviceCallback_body, HSA_RT, call_out, act, bind, pure, Result.bind, EXC_ABORT, hq, hcb,
    ISSUE_HSA_CALLBACK, IS_HSA_CALLBACK, DO_HSA_CALLBACK, device_actions, device_event]

theorem DeviceCallback_body_scan (rt : Runtime) (cb : rocprofiler_hsa_callbacks_t)
    (arg : void_ptr) (a : hsa_agent_t) (ptr : void_ptr) :
    ∀ x ∈ (DeviceCallback_body rt cb arg a ptr).trace, x.in_device_scan = true := by
  by_cases hq : (rt.hsa_agent_get_info a HSA_AGENT_INFO_DEVICE).1 = HSA_STATUS_SUCCESS <;>
  cases hcb : cb.device <;>
  simp [DeviceCallback_body, HSA_RT, call_out, act, bind, pure, Result.bind, EXC_ABORT, hq, hcb,
    ISSUE_HSA_CALLBACK, IS_HSA_CALLBACK, DO_HSA_CALLBACK, Result.trace, Action.in_device_scan]

theorem DeviceCallback_loop_ok (rt : Runtime) (cb : rocprofiler_hsa_callbacks_t)
    (hd : rocprofiler_hsa_callback_fun_t) (arg : void_ptr) (agents : Nat → hsa_agent_t)
    (ptr : void_ptr) (hcb : cb.device = some hd) :
    ∀ (n j : Nat),
      (∀ t, j ≤ t → t < j + n →
        (rt.hsa_agent_get_info (agents t) HSA_AGENT_INFO_DEVICE).1 = HSA_STATUS_SUCCESS) →
      DeviceCallback_loop rt cb arg agents ptr j n =
        Result.ret () ((List.range' j n).flatMap
          (fun t => device_actions rt hd arg ptr (agents t))) := by
  intro n
  induction n with
  | zero => intro j _; rfl
  | succ n ih =>
    intro j h
    have h1 := DeviceCallback_body_ok rt cb hd arg (agents j) ptr hcb (h j (by omega) (by omega))
    have h2 := ih (j + 1) (fun t ht1 ht2 => h t (by omega) (by omega))
    simp only [DeviceCallback_loop, h1, h2, bind, Result.bind, List.range'_succ,
      List.flatMap_cons]

theorem DeviceCallback_loop_scan (rt : Runtime) (cb : rocprofiler_hsa_callbacks_t)
    (arg : void_ptr) (agents : Nat → hsa_agent_t) (ptr : void_ptr) :
    ∀ (n j : Nat), ∀ x ∈ (DeviceCallback_loop rt cb arg agents ptr j n).trace,
      x.in_device_scan = true := by
  intro n
  induction n with
  | zero => intro j x hx; simp [DeviceCallback_loop, pure, Result.trace] at hx
  | succ n ih =>
    intro j
    unfold DeviceCallback_loop
    exact trace_bind_forall _ _ _ (DeviceCallback_body_scan rt cb arg (agents j) ptr)
      (fun _ => ih (j + 1))

theorem AgentCallback_ok (rt : Runtime) (cb : rocprofiler_hsa_callbacks_t)
    (hd : rocprofiler_hsa_callback_fun_t) (arg : void_ptr) (a : hsa_agent_t)
    (d : agent_callback_data_t) (hcb : cb.device = some hd)
    (hacc : (rt.hsa_amd_agent_memory_pool_get_info a d.pool
      HSA_AMD_AGENT_MEMORY_POOL_INFO_ACCESS).1 = HSA_STATUS_SUCCESS)
    (hq : default_access rt d.pool a = true →
      (rt.hsa_agent_get_info a HSA_AGENT_INFO_DEVICE).1 = HSA_STATUS_SUCCESS) :
    AgentCallback rt cb arg a d =
      Result.ret HSA_STATUS_SUCCESS
        (Action.hsa_amd_agent_memory_pool_get_info a d.pool HSA_AMD_AGENT_MEMORY_POOL_INFO_ACCESS ::
          if default_access rt d.pool a then device_actions rt hd arg d.addr a else []) := by
  by_cases hv : (rt.hsa_amd_agent_memory_pool_get_info a d.pool
      HSA_AMD_AGENT_MEMORY_POOL_INFO_ACCESS).2 = HSA_AMD_MEMORY_POOL_ACCESS_ALLOWED_BY_DEFAULT
  · have hda : default_access rt d.pool a = true := by simp [default_access, hv]
    have hb := DeviceCallback_body_ok rt cb hd arg a d.addr hcb (hq hda)
    simp [AgentCallback, HSA_RT, call_out, act, bind, pure, Result.bind, EXC_ABORT, hacc, hv,
      hda, DeviceCallback, DeviceCallback_loop, hb]
  · have hda : default_access rt d.pool a = false := by simp [default_access, hv]
    simp [AgentCallback, HSA_RT, call_out, act, bind, pure, Result.bind, EXC_ABORT, hacc, hv,
      hda]

theorem AgentCallback_scan (rt : Runtime) (cb : rocprofiler_hsa_callbacks_t) (arg : void_ptr)
    (a : hsa_agent_t) (d : agent_callback_data_t) :
    ∀ x ∈ (AgentCallback rt cb arg a d).trace, x.in_device_scan = true := by
  unfold AgentCallback
  apply trace_bind_forall
  · intro x hx
    simp [call_out, act, bind, pure, Result.bind, Result.trace] at hx
    subst hx
    rfl
  · intro v
    apply trace_bind_forall
    · intro x hx
      by_cases hs : v.1 = HSA_STATUS_SUCCESS <;>
        simp [HSA_RT, bind, pure, Result.bind, EXC_ABORT, Result.trace, hs] at hx
    · intro _
      simp only []
      split
      · apply trace_bind_forall
        · exact DeviceCallback_loop_scan rt cb arg _ _ 1 0
        · intro _ x hx
          simp [pure, Result.trace] at hx
      · intro x hx
        simp [bind, Result.bind, pure, Result.trace] at hx

theorem iterate_agents_loop_ok (rt : Runtime) (cb : rocprofiler_hsa_callbacks_t)
    (hd : rocprofiler_hsa_callback_fun_t) (arg : void_ptr) (d : agent_callback_data_t)
    (hcb : cb.device = some hd) :
    ∀ (l : List hsa_agent_t),
      (∀ a ∈ l, (rt.hsa_amd_agent_memory_pool_get_info a d.pool
        HSA_AMD_AGENT_MEMORY_POOL_INFO_ACCESS).1 = HSA_STATUS_SUCCESS) →
      (∀ a ∈ l, default_access rt d.pool a = true →
        (rt.hsa_agent_get_info a HSA_AGENT_INFO_DEVICE).1 = HSA_STATUS_SUCCESS) →
      iterate_agents_loop (fun agent => AgentCallback rt cb arg agent d) l =
        Result.ret HSA_STATUS_SUCCESS (l.flatMap (fun a =>
          Action.hsa_amd_agent_memory_pool_get_info a d.pool
              HSA_AMD_AGENT_MEMORY_POOL_INFO_ACCESS ::
            if default_access rt d.pool a then device_actions rt hd arg d.addr a else [])) := by
  intro l
  induction l with
  | nil => intro _ _; rfl
  | cons a l ih =>
    intro h1 h2
    have ha := AgentCallback_ok rt cb hd arg a d hcb (h1 a (List.mem_cons_self _ _))
      (h2 a (List.mem_cons_self _ _))
    have hl := ih (fun b hb => h1 b (List.mem_cons_of_mem _ hb))
      (fun b hb => h2 b (List.mem_cons_of_mem _ hb))
    simp only [iterate_agents_loop, ha, hl, bind, Result.bind, List.flatMap_cons]
    simp [HSA_STATUS_SUCCESS]

theorem iterate_agents_loop_scan (rt : Runtime) (cb : rocprofiler_hsa_callbacks_t)
    (arg : void_ptr) (d : agent_callback_data_t) :
    ∀ (l : List hsa_agent_t),
      ∀ x ∈ (iterate_agents_loop (fun agent => AgentCallback rt cb arg agent d) l).trace,
        x.in_device_scan = true := by
  intro l
  induction l with
  | nil => intro x hx; simp [iterate_agents_loop, pure, Result.trace] at hx
  | cons a l ih =>
    unfold iterate_agents_loop
    apply trace_bind_forall
    · exact AgentCallback_scan rt cb arg a d
    · intro s
      split
      · intro x hx
        simp [pure, Result.trace] at hx
      · exact ih

theorem hsa_iterate_agents_scan (rt : Runtime) (cb : rocprofiler_hsa_callbacks_t)
    (arg : void_ptr) (d : agent_callback_data_t) :
    ∀ x ∈ (hsa_iterate_agents rt (fun agent => AgentCallback rt cb arg agent d)).trace,
      x.in_device_scan = true := by
  unfold hsa_iterate_agents
  apply trace_bind_forall
  · intro x hx
    simp [act, Result.trace] at hx
    subst hx
    rfl
  · intro _
    exact iterate_agents_loop_scan rt cb arg d rt.system_agents

theorem hsa_iterate_agents_ok (rt : Runtime) (cb : rocprofiler_hsa_callbacks_t)
    (hd : rocprofiler_hsa_callback_fun_t) (arg : void_ptr) (d : agent_callback_data_t)
    (hcb : cb.device = some hd)
    (hacc : ∀ a ∈ rt.system_agents, (rt.hsa_amd_agent_memory_pool_get_info a d.pool
        HSA_AMD_AGENT_MEMORY_POOL_INFO_ACCESS).1 = HSA_STATUS_SUCCESS)
    (hinfo : ∀ a ∈ rt.system_agents, default_access rt d.pool a = true →
        (rt.hsa_agent_get_info a HSA_AGENT_INFO_DEVICE).1 = HSA_STATUS_SUCCESS) :
    hsa_iterate_agents rt (fun agent => AgentCallback rt cb arg agent d) =
      Result.ret HSA_STATUS_SUCCESS (Action.hsa_iterate_agents ::
        rt.system_agents.flatMap (fun a =>
          Action.hsa_amd_agent_memory_pool_get_info a d.pool
              HSA_AMD_AGENT_MEMORY_POOL_INFO_ACCESS ::
            if default_access rt d.pool a then device_actions rt hd arg d.addr a else [])) := by
  simp only [hsa_iterate_agents, act, bind, Result.bind,
    iterate_agents_loop_ok rt cb hd arg d hcb rt.system_agents hacc hinfo, List.singleton_append]

/-- A trace made only of agent-scan actions holds no event other than
Device events and no forwarded call. -/
theorem scan_trace_filters (tr : List Action) (h : ∀ x ∈ tr, x.in_device_scan = true) :
    events_of ROCPROFILER_HSA_CB_ID_ALLOCATE tr = [] ∧ tr.filter Action.is_forward = [] := by
  constructor
  · simp only [events_of, List.filter_eq_nil_iff]
    intro x hx
    have hs := h x hx
    cases x <;> simp_all [Action.in_device_scan, Action.is_event]
  · simp only [List.filter_eq_nil_iff]
    intro x hx
    have hs := h x hx
    cases x <;> simp_all [Action.in_device_scan, Action.is_forward]

theorem events_of_device_scan (rt : Runtime) (hd : rocprofiler_hsa_callback_fun_t)
    (arg : void_ptr) (mem : void_ptr) (pool : hsa_amd_memory_pool_t) :
    ∀ (l : List hsa_agent_t),
      events_of ROCPROFILER_HSA_CB_ID_DEVICE (l.flatMap (fun a =>
          Action.hsa_amd_agent_memory_pool_get_info a pool HSA_AMD_AGENT_MEMORY_POOL_INFO_ACCESS ::
            if default_access rt pool a then device_actions rt hd arg mem a else [])) =
        (l.filter (default_access rt pool)).map (device_event rt hd arg mem) := by
  intro l
  induction l with
  | nil => rfl
  | cons a l ih =>
    simp only [events_of] at ih
    simp only [events_of, List.flatMap_cons, List.filter_append, ih]
    by_cases h : default_access rt pool a = true
    · simp [List.filter_cons, h, device_actions, device_event, Action.is_event]
    · simp [List.filter_cons, h, Action.is_event]

theorem events_device_actions (rt : Runtime) (hd : rocprofiler_hsa_callback_fun_t)
    (arg : void_ptr) (mem : void_ptr) (agents : Nat → hsa_agent_t) :
    ∀ (l : List Nat),
      events (l.flatMap (fun t => device_actions rt hd arg mem (agents t))) =
        l.map (fun t => device_event rt hd arg mem (agents t)) := by
  intro l
  induction l with
  | nil => rfl
  | cons a l ih =>
    simp only [events] at ih
    simp only [events, List.flatMap_cons, List.filter_append, ih]
    simp [device_actions, device_event, Action.is_callback]

theorem MemoryPoolAllocate_trace (rt : Runtime) (cb : rocprofiler_hsa_callbacks_t)
    (ha : rocprofiler_hsa_callback_fun_t) (arg : void_ptr) (pool : hsa_amd_memory_pool_t)
    (size flags : Nat) (hcb : cb.allocate = some ha)
    (halloc : (rt.hsa_amd_memory_pool_allocate_fn pool size flags).1 = HSA_STATUS_SUCCESS)
    (hseg : (rt.hsa_amd_memory_pool_get_info pool HSA_AMD_MEMORY_POOL_INFO_SEGMENT).1
      = HSA_STATUS_SUCCESS)
    (hflag : (rt.hsa_amd_memory_pool_get_info pool HSA_AMD_MEMORY_POOL_INFO_GLOBAL_FLAGS).1
      = HSA_STATUS_SUCCESS) :
    (MemoryPoolAllocate rt cb arg pool size flags).trace =
      [Action.hsa_amd_memory_pool_allocate_fn pool size flags,
        Action.hsa_amd_memory_pool_get_info pool HSA_AMD_MEMORY_POOL_INFO_SEGMENT,
        Action.hsa_amd_memory_pool_get_info pool HSA_AMD_MEMORY_POOL_INFO_GLOBAL_FLAGS,
        allocate_event rt ha arg pool size flags] ++
      (match cb.device with
        | some _ =>
          (hsa_iterate_agents rt (fun agent => AgentCallback rt cb arg agent
            { pool := pool, addr := (rt.hsa_amd_memory_pool_allocate_fn pool size flags).2 })).trace
        | none => []) := by
  cases hD : cb.device with
  | none =>
    simp [MemoryPoolAllocate, HSA_RT, call_out, act, bind, pure, Result.bind, EXC_ABORT, hcb,
      halloc, hseg, hflag, hD, IS_HSA_CALLBACK, DO_HSA_CALLBACK, Result.trace, allocate_event]
  | some hd =>
    simp only [MemoryPoolAllocate, HSA_RT, call_out, act, bind, pure, Result.bind, EXC_ABORT, hcb,
      halloc, hseg, hflag, hD, IS_HSA_CALLBACK, DO_HSA_CALLBACK, Result.trace, allocate_event]
    simp only [reduceCtorEq, ↓reduceIte, ne_eq, not_true_eq_false, List.append_nil,
      List.singleton_append, List.nil_append, List.cons_append]
    cases hsa_iterate_agents rt (fun agent => AgentCallback rt cb arg agent
            { pool := pool, addr := (rt.hsa_amd_memory_pool_allocate_fn pool size flags).2 }) <;>
    simp [Result.trace]

/-- C1: for every pool, size, flags and every callback set whose Allocate
slot holds a handler `ha`: if the forwarded pool allocation and the two
pool-info queries succeed, the trace of `MemoryPoolAllocate` starts with the
forwarded call, the two queries and then the invocation of `ha` with
identifier Allocate, `addr` the address the forwarded call stored through
`ptr`, `size` the requested size, `segment` and `global_flag` the values
queried from the pool, and the registered context argument; nothing that
follows is an Allocate event or a forwarded call, so the Allocate event fires
exactly once, after the one forwarded call. -/
theorem MemoryPoolAllocate_fires_allocate (rt : Runtime) (cb : rocprofiler_hsa_callbacks_t)
    (ha : rocprofiler_hsa_callback_fun_t) (arg : void_ptr) (pool : hsa_amd_memory_pool_t)
    (size flags : Nat) (hcb : cb.allocate = some ha)
    (halloc : (rt.hsa_amd_memory_pool_allocate_fn pool size flags).1 = HSA_STATUS_SUCCESS)
    (hseg : (rt.hsa_amd_memory_pool_get_info pool HSA_AMD_MEMORY_POOL_INFO_SEGMENT).1
      = HSA_STATUS_SUCCESS)
    (hflag : (rt.hsa_amd_memory_pool_get_info pool HSA_AMD_MEMORY_POOL_INFO_GLOBAL_FLAGS).1
      = HSA_STATUS_SUCCESS) :
    (∃ rest,
      (MemoryPoolAllocate rt cb arg pool size flags).trace =
        [Action.hsa_amd_memory_pool_allocate_fn pool size flags,
          Action.hsa_amd_memory_pool_get_info pool HSA_AMD_MEMORY_POOL_INFO_SEGMENT,
          Action.hsa_amd_memory_pool_get_info pool HSA_AMD_MEMORY_POOL_INFO_GLOBAL_FLAGS,
          Action.callback ha ROCPROFILER_HSA_CB_ID_ALLOCATE
            (rocprofiler_hsa_callback_data_t.allocate
              { addr := (rt.hsa_amd_memory_pool_allocate_fn pool size flags).2
                size := size
                segment :=
                  (rt.hsa_amd_memory_pool_get_info pool HSA_AMD_MEMORY_POOL_INFO_SEGMENT).2
                global_flag :=
                  (rt.hsa_amd_memory_pool_get_info pool
                    HSA_AMD_MEMORY_POOL_INFO_GLOBAL_FLAGS).2 })
            arg] ++ rest ∧
      events_of ROCPROFILER_HSA_CB_ID_ALLOCATE rest = [] ∧
      rest.filter Action.is_forward = []) ∧
    events_of ROCPROFILER_HSA_CB_ID_ALLOCATE (MemoryPoolAllocate rt cb arg pool size flags).trace =
      [Action.callback ha ROCPROFILER_HSA_CB_ID_ALLOCATE
        (rocprofiler_hsa_callback_data_t.allocate
          { addr := (rt.hsa_amd_memory_pool_allocate_fn pool size flags).2
            size := size
            segment := (rt.hsa_amd_memory_pool_get_info pool HSA_AMD_MEMORY_POOL_INFO_SEGMENT).2
            global_flag :=
              (rt.hsa_amd_memory_pool_get_info pool HSA_AMD_MEMORY_POOL_INFO_GLOBAL_FLAGS).2 })
        arg] ∧
    (MemoryPoolAllocate rt cb arg pool size flags).trace.filter Action.is_forward =
      [Action.hsa_amd_memory_pool_allocate_fn pool size flags] := by
  have htr := MemoryPoolAllocate_trace rt cb ha arg pool size flags hcb halloc hseg hflag
  have hrest : ∀ x ∈ (match cb.device with
        | some _ =>
          (hsa_iterate_agents rt (fun agent => AgentCallback rt cb arg agent
            { pool := pool, addr := (rt.hsa_amd_memory_pool_allocate_fn pool size flags).2 })).trace
        | none => []), x.in_device_scan = true := by
    cases cb.device with
    | none => intro x hx; cases hx
    | some hd => exact hsa_iterate_agents_scan rt cb arg _
  obtain ⟨h1, h2⟩ := scan_trace_filters _ hrest
  refine ⟨⟨_, htr, h1, h2⟩, ?_, ?_⟩
  · rw [htr]
    simp only [events_of, List.filter_append] at h1 ⊢
    rw [h1]
    rfl
  · rw [htr, List.filter_append, h2]
    rfl

/-- C1, on a concrete call: all calls succeed, Allocate and Device handlers
registered, 64 bytes from pool 3; the one Allocate event carries address 4242,
size 64, segment 5 and flags 6. -/
theorem MemoryPoolAllocate_fires_allocate_witness :
    (allocate_and_device.allocate = some 1 ∧
      (example_runtime.hsa_amd_memory_pool_allocate_fn 3 64 0).1 = HSA_STATUS_SUCCESS ∧
      (example_runtime.hsa_amd_memory_pool_get_info 3 HSA_AMD_MEMORY_POOL_INFO_SEGMENT).1
        = HSA_STATUS_SUCCESS ∧
      (example_runtime.hsa_amd_memory_pool_get_info 3 HSA_AMD_MEMORY_POOL_INFO_GLOBAL_FLAGS).1
        = HSA_STATUS_SUCCESS) ∧
    events_of ROCPROFILER_HSA_CB_ID_ALLOCATE
        (MemoryPoolAllocate example_runtime allocate_and_device 99 3 64 0).trace =
      [Action.callback 1 ROCPROFILER_HSA_CB_ID_ALLOCATE
        (rocprofiler_hsa_callback_data_t.allocate
          { addr := 4242, size := 64, segment := 5, global_flag := 6 }) 99] :=
  ⟨⟨rfl, rfl, rfl, rfl⟩,
    (MemoryPoolAllocate_fires_allocate example_runtime allocate_and_device 1 99 3 64 0
      rfl rfl rfl rfl).2.1⟩

theorem MemoryPoolAllocate_ok (rt : Runtime) (cb : rocprofiler_hsa_callbacks_t)
    (ha hd : rocprofiler_hsa_callback_fun_t) (arg : void_ptr) (pool : hsa_amd_memory_pool_t)
    (size flags : Nat) (hA : cb.allocate = some ha) (hD : cb.device = some hd)
    (halloc : (rt.hsa_amd_memory_pool_allocate_fn pool size flags).1 = HSA_STATUS_SUCCESS)
    (hseg : (rt.hsa_amd_memory_pool_get_info pool HSA_AMD_MEMORY_POOL_INFO_SEGMENT).1
      = HSA_STATUS_SUCCESS)
    (hflag : (rt.hsa_amd_memory_pool_get_info pool HSA_AMD_MEMORY_POOL_INFO_GLOBAL_FLAGS).1
      = HSA_STATUS_SUCCESS)
    (hacc : ∀ a ∈ rt.system_agents, (rt.hsa_amd_agent_memory_pool_get_info a pool
        HSA_AMD_AGENT_MEMORY_POOL_INFO_ACCESS).1 = HSA_STATUS_SUCCESS)
    (hinfo : ∀ a ∈ rt.system_agents, default_access rt pool a = true →
        (rt.hsa_agent_get_info a HSA_AGENT_INFO_DEVICE).1 = HSA_STATUS_SUCCESS) :
    MemoryPoolAllocate rt cb arg pool size flags =
      Result.ret HSA_STATUS_SUCCESS
        ([Action.hsa_amd_memory_pool_allocate_fn pool size flags,
            Action.hsa_amd_memory_pool_get_info pool HSA_AMD_MEMORY_POOL_INFO_SEGMENT,
            Action.hsa_amd_memory_pool_get_info pool HSA_AMD_MEMORY_POOL_INFO_GLOBAL_FLAGS,
            allocate_event rt ha arg pool size flags,
            Action.hsa_iterate_agents] ++
          rt.system_agents.flatMap (fun a =>
            Action.hsa_amd_agent_memory_pool_get_info a pool
                HSA_AMD_AGENT_MEMORY_POOL_INFO_ACCESS ::
              if default_access rt pool a then
                device_actions rt hd arg (rt.hsa_amd_memory_pool_allocate_fn pool size flags).2 a
              else [])) := by
  have hit := hsa_iterate_agents_ok rt cb hd arg
    { pool := pool, addr := (rt.hsa_amd_memory_pool_allocate_fn pool size flags).2 } hD hacc hinfo
  simp only [MemoryPoolAllocate, HSA_RT, call_out, act, bind, pure, Result.bind, EXC_ABORT, hA,
    halloc, hseg, hflag, hD, IS_HSA_CALLBACK, DO_HSA_CALLBACK, allocate_event, hit]
  simp

/-- C2 as stated fails: with only a Device handler registered (Allocate slot
null), a pool allocation that succeeds on a system where two of the three
agents have default access to the pool fires no Device event at all: the
wrapper returns success right after the forwarded call. -/
theorem MemoryPoolAllocate_device_counterexample :
    only_device.device = some 2 ∧
    (example_runtime.hsa_amd_memory_pool_allocate_fn 3 64 0).1 = HSA_STATUS_SUCCESS ∧
    (example_runtime.system_agents.filter (default_access example_runtime 3)).length = 2 ∧
    MemoryPoolAllocate example_runtime only_device 99 3 64 0 =
      Result.ret HSA_STATUS_SUCCESS [Action.hsa_amd_memory_pool_allocate_fn 3 64 0] ∧
    events_of ROCPROFILER_HSA_CB_ID_DEVICE
      (MemoryPoolAllocate example_runtime only_device 99 3 64 0).trace = [] :=
  ⟨rfl, rfl, by decide, rfl, rfl⟩

/-- C2, amended: for every pool allocation made while both an Allocate and a
Device handler are registered, on which the forwarded call, the two pool-info
queries, the access query of every system agent and the device-type query of
every default-access agent succeed, the Device events fired by
`MemoryPoolAllocate` are exactly, in the runtime's agent-iteration order, one
per system agent whose access to the pool is allowed by default and none for
any other agent, each carrying that agent's resolved device index and device
type and the address just allocated; their number is the number of
default-access agents; they follow the one Allocate event; and the wrapper
returns success. -/
theorem MemoryPoolAllocate_device_events (rt : Runtime) (cb : rocprofiler_hsa_callbacks_t)
    (ha hd : rocprofiler_hsa_callback_fun_t) (arg : void_ptr) (pool : hsa_amd_memory_pool_t)
    (size flags : Nat) (hA : cb.allocate = some ha) (hD : cb.device = some hd)
    (halloc : (rt.hsa_amd_memory_pool_allocate_fn pool size flags).1 = HSA_STATUS_SUCCESS)
    (hseg : (rt.hsa_amd_memory_pool_get_info pool HSA_AMD_MEMORY_POOL_INFO_SEGMENT).1
      = HSA_STATUS_SUCCESS)
    (hflag : (rt.hsa_amd_memory_pool_get_info pool HSA_AMD_MEMORY_POOL_INFO_GLOBAL_FLAGS).1
      = HSA_STATUS_SUCCESS)
    (hacc : ∀ a ∈ rt.system_agents, (rt.hsa_amd_agent_memory_pool_get_info a pool
        HSA_AMD_AGENT_MEMORY_POOL_INFO_ACCESS).1 = HSA_STATUS_SUCCESS)
    (hinfo : ∀ a ∈ rt.system_agents, default_access rt pool a = true →
        (rt.hsa_agent_get_info a HSA_AGENT_INFO_DEVICE).1 = HSA_STATUS_SUCCESS) :
    events_of ROCPROFILER_HSA_CB_ID_DEVICE (MemoryPoolAllocate rt cb arg pool size flags).trace =
        (rt.system_agents.filter (default_access rt pool)).map (fun a =>
          Action.callback hd ROCPROFILER_HSA_CB_ID_DEVICE
            (rocprofiler_hsa_callback_data_t.device
              { id := rt.dev_index a
                mem := (rt.hsa_amd_memory_pool_allocate_fn pool size flags).2
                type := (rt.hsa_agent_get_info a HSA_AGENT_INFO_DEVICE).2 })
            arg) ∧
      (events_of ROCPROFILER_HSA_CB_ID_DEVICE
          (MemoryPoolAllocate rt cb arg pool size flags).trace).length =
        (rt.system_agents.filter (default_access rt pool)).length ∧
      events (MemoryPoolAllocate rt cb arg pool size flags).trace =
        allocate_event rt ha arg pool size flags ::
          events_of ROCPROFILER_HSA_CB_ID_DEVICE
            (MemoryPoolAllocate rt cb arg pool size flags).trace ∧
      (MemoryPoolAllocate rt cb arg pool size flags).returned = some HSA_STATUS_SUCCESS := by
  have hok := MemoryPoolAllocate_ok rt cb ha hd arg pool size flags hA hD halloc hseg hflag
    hacc hinfo
  have hdev := events_of_device_scan rt hd arg
    (rt.hsa_amd_memory_pool_allocate_fn pool size flags).2 pool rt.system_agents
  have h1 : events_of ROCPROFILER_HSA_CB_ID_DEVICE
      (MemoryPoolAllocate rt cb arg pool size flags).trace =
      (rt.system_agents.filter (default_access rt pool)).map
        (device_event rt hd arg (rt.hsa_amd_memory_pool_allocate_fn pool size flags).2) := by
    rw [hok]
    simp only [Result.trace, events_of, List.filter_append] at hdev ⊢
    rw [hdev]
    rfl
  refine ⟨h1, ?_, ?_, ?_⟩
  · rw [h1, List.length_map]
  · rw [h1, hok]
    simp only [Result.trace, events, List.filter_append]
    have hs : ∀ (l : List hsa_agent_t),
        List.filter Action.is_callback (l.flatMap (fun a =>
          Action.hsa_amd_agent_memory_pool_get_info a pool
              HSA_AMD_AGENT_MEMORY_POOL_INFO_ACCESS ::
            if default_access rt pool a then
              device_actions rt hd arg (rt.hsa_amd_memory_pool_allocate_fn pool size flags).2 a
            else [])) =
          (l.filter (default_access rt pool)).map
            (device_event rt hd arg (rt.hsa_amd_memory_pool_allocate_fn pool size flags).2) := by
      intro l
      induction l with
      | nil => rfl
      | cons a l ih =>
        simp only [List.flatMap_cons, List.filter_append, ih]
        by_cases h : default_access rt pool a = true
        · simp [List.filter_cons, h, device_actions, device_event, Action.is_callback]
        · simp [List.filter_cons, h, Action.is_callback]
    rw [hs]
    rfl
  · rw [hok]
    rfl

/-- C2 amended, the scenario of the spec: Allocate and Device handlers
registered, a pool accessible by default to two of the three system agents;
one Allocate event, then two Device events in agent order. -/
theorem MemoryPoolAllocate_device_events_witness :
    (allocate_and_device.allocate = some 1 ∧ allocate_and_device.device = some 2 ∧
      (example_runtime.hsa_amd_memory_pool_allocate_fn 3 64 0).1 = HSA_STATUS_SUCCESS) ∧
    (events_of ROCPROFILER_HSA_CB_ID_DEVICE
          (MemoryPoolAllocate example_runtime allocate_and_device 99 3 64 0).trace =
        (example_runtime.system_agents.filter (default_access example_runtime 3)).map (fun a =>
          Action.callback 2 ROCPROFILER_HSA_CB_ID_DEVICE
            (rocprofiler_hsa_callback_data_t.device
              { id := example_runtime.dev_index a
                mem := (example_runtime.hsa_amd_memory_pool_allocate_fn 3 64 0).2
                type := (example_runtime.hsa_agent_get_info a HSA_AGENT_INFO_DEVICE).2 })
            99) ∧
      (events_of ROCPROFILER_HSA_CB_ID_DEVICE
          (MemoryPoolAllocate example_runtime allocate_and_device 99 3 64 0).trace).length =
        (example_runtime.system_agents.filter (default_access example_runtime 3)).length ∧
      events (MemoryPoolAllocate example_runtime allocate_and_device 99 3 64 0).trace =
        allocate_event example_runtime 1 99 3 64 0 ::
          events_of ROCPROFILER_HSA_CB_ID_DEVICE
            (MemoryPoolAllocate example_runtime allocate_and_device 99 3 64 0).trace ∧
      (MemoryPoolAllocate example_runtime allocate_and_device 99 3 64 0).returned
        = some HSA_STATUS_SUCCESS) :=
  ⟨⟨rfl, rfl, rfl⟩,
    MemoryPoolAllocate_device_events example_runtime allocate_and_device 1 2 99 3 64 0
      rfl rfl rfl rfl rfl (fun _ _ => rfl) (fun _ _ _ => rfl)⟩

theorem AgentsAllowAccess_ok (rt : Runtime) (cb : rocprofiler_hsa_callbacks_t)
    (hd : rocprofiler_hsa_callback_fun_t) (arg : void_ptr) (num_agents : Nat)
    (agents : Nat → hsa_agent_t) (flags ptr : void_ptr) (hD : cb.device = some hd)
    (hfwd : rt.hsa_amd_agents_allow_access_fn num_agents agents flags ptr = HSA_STATUS_SUCCESS)
    (hinfo : ∀ j, j < num_agents →
      (rt.hsa_agent_get_info (agents j) HSA_AGENT_INFO_DEVICE).1 = HSA_STATUS_SUCCESS) :
    AgentsAllowAccess rt cb arg num_agents agents flags ptr =
      Result.ret HSA_STATUS_SUCCESS
        (Action.hsa_amd_agents_allow_access_fn num_agents ((List.range num_agents).map agents)
            flags ptr ::
          (List.range num_agents).flatMap (fun j => device_actions rt hd arg ptr (agents j))) := by
  have hl := DeviceCallback_loop_ok rt cb hd arg agents ptr hD num_agents 0
    (fun t _ ht => hinfo t (by omega))
  simp only [AgentsAllowAccess, HSA_RT, call_st, act, bind, pure, Result.bind, EXC_ABORT, hfwd,
    hD, IS_HSA_CALLBACK, DeviceCallback, hl, List.range_eq_range']
  simp

theorem AgentsAllowAccess_no_handler (rt : Runtime) (cb : rocprofiler_hsa_callbacks_t)
    (arg : void_ptr) (num_agents : Nat) (agents : Nat → hsa_agent_t) (flags ptr : void_ptr)
    (hD : cb.device = none)
    (hfwd : rt.hsa_amd_agents_allow_access_fn num_agents agents flags ptr = HSA_STATUS_SUCCESS) :
    AgentsAllowAccess rt cb arg num_agents agents flags ptr =
      Result.ret HSA_STATUS_SUCCESS
        [Action.hsa_amd_agents_allow_access_fn num_agents ((List.range num_agents).map agents)
          flags ptr] := by
  simp [AgentsAllowAccess, HSA_RT, call_st, act, bind, pure, Result.bind, EXC_ABORT, hfwd,
    hD, IS_HSA_CALLBACK]

/-- C9 as stated fails: with a Device handler registered and the forwarded
allow-access call succeeding for a list of two agents, `AgentsAllowAccess`
fires no Device event when the device-type query of the first agent fails: it
aborts on that query. -/
theorem AgentsAllowAccess_counterexample :
    only_device.device = some 2 ∧
    example_runtime_no_agent_info.hsa_amd_agents_allow_access_fn 2 (fun j => 20 + j) 0 555
      = HSA_STATUS_SUCCESS ∧
    AgentsAllowAccess example_runtime_no_agent_info only_device 99 2 (fun j => 20 + j) 0 555 =
      Result.abort HSA_STATUS_ERROR
        "hsa_agent_get_info(agent, HSA_AGENT_INFO_DEVICE, &data.device.type)"
        [Action.hsa_amd_agents_allow_access_fn 2 [20, 21] 0 555, Action.GetAgentInfo 20,
          Action.hsa_agent_get_info 20 HSA_AGENT_INFO_DEVICE] ∧
    (events_of ROCPROFILER_HSA_CB_ID_DEVICE
      (AgentsAllowAccess example_runtime_no_agent_info only_device 99 2 (fun j => 20 + j) 0
        555).trace).length ≠ 2 :=
  ⟨rfl, rfl, rfl, by decide⟩

/-- C9, amended: for every caller-supplied agent list `(num_agents, agents)`,
every flags and ptr, when the forwarded allow-access call succeeds: if a
Device handler is registered and the device-type query succeeds for every
listed agent, `AgentsAllowAccess` returns success after the forwarded call
followed, for each `j < num_agents` in list order, by the resolution of
`agents[j]`, its device-type query and one Device event carrying the resolved
device index and device type of `agents[j]` and `mem = ptr`; these
`num_agents` Device events are the only events, and no system-wide agent
enumeration is performed.  With no Device handler registered the forwarded
call is all it does, whatever that call returns: no event and no agent
resolution. -/
theorem AgentsAllowAccess_device_events (rt : Runtime) (cb : rocprofiler_hsa_callbacks_t)
    (arg : void_ptr) (num_agents : Nat) (agents : Nat → hsa_agent_t) (flags ptr : void_ptr) :
    (∀ hd, cb.device = some hd →
      rt.hsa_amd_agents_allow_access_fn num_agents agents flags ptr = HSA_STATUS_SUCCESS →
      (∀ j, j < num_agents →
        (rt.hsa_agent_get_info (agents j) HSA_AGENT_INFO_DEVICE).1 = HSA_STATUS_SUCCESS) →
      AgentsAllowAccess rt cb arg num_agents agents flags ptr =
          Result.ret HSA_STATUS_SUCCESS
            (Action.hsa_amd_agents_allow_access_fn num_agents
                ((List.range num_agents).map agents) flags ptr ::
              (List.range num_agents).flatMap (fun j =>
                [Action.GetAgentInfo (agents j),
                  Action.hsa_agent_get_info (agents j) HSA_AGENT_INFO_DEVICE,
                  Action.callback hd ROCPROFILER_HSA_CB_ID_DEVICE
                    (rocprofiler_hsa_callback_data_t.device
                      { id := rt.dev_index (agents j)
                        mem := ptr
                        type := (rt.hsa_agent_get_info (agents j) HSA_AGENT_INFO_DEVICE).2 })
                    arg])) ∧
        events (AgentsAllowAccess rt cb arg num_agents agents flags ptr).trace =
          (List.range num_agents).map (fun j =>
            Action.callback hd ROCPROFILER_HSA_CB_ID_DEVICE
              (rocprofiler_hsa_callback_data_t.device
                { id := rt.dev_index (agents j)
                  mem := ptr
                  type := (rt.hsa_agent_get_info (agents j) HSA_AGENT_INFO_DEVICE).2 })
              arg) ∧
        (events (AgentsAllowAccess rt cb arg num_agents agents flags ptr).trace).length
          = num_agents ∧
        Action.hsa_iterate_agents ∉
          (AgentsAllowAccess rt cb arg num_agents agents flags ptr).trace) ∧
    (cb.device = none →
      (AgentsAllowAccess rt cb arg num_agents agents flags ptr).trace =
        [Action.hsa_amd_agents_allow_access_fn num_agents
          ((List.range num_agents).map agents) flags ptr]) := by
  constructor
  · intro hd hD hfwd hinfo
    have hok := AgentsAllowAccess_ok rt cb hd arg num_agents agents flags ptr hD hfwd hinfo
    have hev := events_device_actions rt hd arg ptr agents (List.range num_agents)
    have h2 : events (AgentsAllowAccess rt cb arg num_agents agents flags ptr).trace =
        (List.range num_agents).map (fun j => device_event rt hd arg ptr (agents j)) := by
      rw [hok]
      simp only [Result.trace, events, List.filter_cons] at hev ⊢
      rw [hev]
      rfl
    refine ⟨hok, h2, ?_, ?_⟩
    · rw [h2, List.length_map, List.length_range]
    · rw [hok]
      simp [Result.trace, device_actions, device_event, List.mem_flatMap]
  · intro hD
    by_cases hfwd :
        rt.hsa_amd_agents_allow_access_fn num_agents agents flags ptr = HSA_STATUS_SUCCESS
    · rw [AgentsAllowAccess_no_handler rt cb arg num_agents agents flags ptr hD hfwd]
      rfl
    · rw [AgentsAllowAccess_fail rt cb arg num_agents agents flags ptr hfwd]
      rfl

/-- C9 amended, on a concrete call: two listed agents 20 and 21, every call
succeeding; two Device events in list order with a handler, none without. -/
theorem AgentsAllowAccess_device_events_witness :
    (example_runtime.hsa_amd_agents_allow_access_fn 2 (fun j => 20 + j) 0 555
        = HSA_STATUS_SUCCESS ∧ only_device.device = some 2 ∧ only_memcopy.device = none) ∧
    events (AgentsAllowAccess example_runtime only_device 99 2 (fun j => 20 + j) 0 555).trace =
      (List.range 2).map (fun j =>
        Action.callback 2 ROCPROFILER_HSA_CB_ID_DEVICE
          (rocprofiler_hsa_callback_data_t.device
            { id := example_runtime.dev_index (20 + j)
              mem := 555
              type := (example_runtime.hsa_agent_get_info (20 + j) HSA_AGENT_INFO_DEVICE).2 })
          99) ∧
    (AgentsAllowAccess example_runtime only_memcopy 99 2 (fun j => 20 + j) 0 555).trace =
      [Action.hsa_amd_agents_allow_access_fn 2 ((List.range 2).map (fun j => 20 + j)) 0 555] :=
  ⟨⟨rfl, rfl, rfl⟩,
    ((AgentsAllowAccess_device_events example_runtime only_device 99 2 (fun j => 20 + j) 0
      555).1 2 rfl rfl (fun _ _ => rfl)).2.1,
    (AgentsAllowAccess_device_events example_runtime only_memcopy 99 2 (fun j => 20 + j) 0
      555).2 rfl⟩

end rocprofiler
